import Mathlib

/-!
Verification of the plant-whisperer derivation pipeline.

The definitions below are a shallow embedding, over exact rational
arithmetic, of the scoring and temporal-tracking code of the repository:

* `services/plantModel.ts` — the per-sensor score normalizers
  (`computeHydrationScore`, `computeTempScore`, `computeHumScore`,
  `computeComfortScore`, `computeAirQualityScore`, `computeBioSignalScore`),
  `deriveMood`, `deriveEmotionState` and `getEmotionMessage`.
* `hooks/usePlantState.ts` (temporal-tracker revision) —
  `updateStateFromRawVitals`: the wet-streak/watering index, the rolling
  z-score gas index, the multiplicative PCS, the published vitals, the
  event log, the reminder, and the EMA publish gate.

JavaScript numbers are modelled as `ℚ` (exact arithmetic; NaN is not a
value of the model), `Math.round` as floor of `x + 1/2` (JS rounds half
toward +∞), and the module-level MQ-2 baseline as an explicit parameter.
-/

/-- JS `Math.round`: round half toward positive infinity. -/
def mathRound (x : ℚ) : ℤ := ⌊x + 1/2⌋

/-- JS-style clamp helper `Math.max(lo, Math.min(hi, v))` as used throughout
the source. -/
def clampQ (v lo hi : ℚ) : ℚ := max lo (min hi v)

/-! Each score normalizer is a piecewise function; the linear expression of
each branch of the source is extracted into a named band function, so that
continuity at the band boundaries can be stated as agreement of adjacent
band functions at the shared threshold. -/

/-- Hydration wet band (`clamped < IDEAL_WET`): `20 + r * 80` with
`r = (clamped - SOGGY) / (IDEAL_WET - SOGGY)`. -/
def hydBandWet (x : ℚ) : ℚ := 20 + (x - 350) / (450 - 350) * 80

/-- Hydration band between `IDEAL_WET` and `DEADZONE_MIN`: `60 + r * 40`. -/
def hydBandIdealWet (x : ℚ) : ℚ := 60 + (x - 450) / (480 - 450) * 40

/-- Hydration band between `DEADZONE_MAX` and `IDEAL_DRY`: `100 - r * 40`. -/
def hydBandIdealDry (x : ℚ) : ℚ := 100 - (x - 620) / (700 - 620) * 40

/-- Hydration dry band (`clamped > IDEAL_DRY`): `60 - r * 60`. -/
def hydBandDry (x : ℚ) : ℚ := 60 - (x - 700) / (850 - 700) * 60

/-- The piecewise `score` expression of `computeHydrationScore` as a
function of the clamped soil value: deadzone [480, 620] scores 100, the
four linear bands cover the rest. -/
def hydCore (clamped : ℚ) : ℚ :=
  if 480 ≤ clamped ∧ clamped ≤ 620 then 100
  else if clamped < 450 then hydBandWet clamped
  else if clamped < 480 then hydBandIdealWet clamped
  else if clamped ≤ 700 then hydBandIdealDry clamped
  else hydBandDry clamped

/-- Hydration score normalizer for the soil-moisture sensor
(`computeHydrationScore` in `services/plantModel.ts`). Soil is clamped to
[350, 850]; the deadzone [480, 620] scores 100; piecewise-linear bands
surround it; a wet raindrop reading (`rain < 400`) cushions a low score
upward by 15, capped at 60; the result is rounded and clamped to [0, 100]. -/
def computeHydrationScore (soil rain : ℚ) : ℤ :=
  -- SOGGY = 350, DRY = 850, IDEAL_WET = 450, IDEAL_DRY = 700,
  -- DEADZONE_MIN = 480, DEADZONE_MAX = 620
  let clamped : ℚ := max 350 (min 850 soil)
  let score : ℚ := hydCore clamped
  let score : ℚ := if rain < 400 ∧ score < 60 then min 60 (score + 15) else score
  max 0 (min 100 (mathRound score))

/-- Temperature cold hazard band (`temp < ACCEPTABLE_MIN`):
`r * 40` with `r = (temp - 10) / (ACCEPTABLE_MIN - 10)`. -/
def tempBandColdHazard (x : ℚ) : ℚ := (x - 10) / (18 - 10) * 40

/-- Temperature band between `ACCEPTABLE_MIN` and `DEADZONE_MIN`: `40 + r * 60`. -/
def tempBandColdIdeal (x : ℚ) : ℚ := 40 + (x - 18) / (21 - 18) * 60

/-- Temperature band between `DEADZONE_MAX` and `ACCEPTABLE_MAX`: `40 + r * 60`. -/
def tempBandHotIdeal (x : ℚ) : ℚ := 40 + (29 - x) / (29 - 25) * 60

/-- Temperature hot hazard band (`temp > ACCEPTABLE_MAX`):
`r * 40` with `r = (35 - temp) / (35 - ACCEPTABLE_MAX)`. -/
def tempBandHotHazard (x : ℚ) : ℚ := (35 - x) / (35 - 29) * 40

/-- Temperature score normalizer (`computeTempScore` in
`services/plantModel.ts`): deadzone [21, 25] scores 100, acceptable band
[18, 29] interpolates 40 → 100, hazard bands interpolate toward 0. -/
def computeTempScore (temp : ℚ) : ℤ :=
  -- ACCEPTABLE_MIN = 18, ACCEPTABLE_MAX = 29, DEADZONE_MIN = 21, DEADZONE_MAX = 25
  if 21 ≤ temp ∧ temp ≤ 25 then 100
  else if temp < 18 ∨ 29 < temp then
    if temp < 18 then max 0 (mathRound (tempBandColdHazard temp))
    else max 0 (mathRound (tempBandHotHazard temp))
  else if temp < 21 then mathRound (tempBandColdIdeal temp)
  else mathRound (tempBandHotIdeal temp)

/-- Humidity low hazard band (`hum < ACCEPTABLE_MIN`): `r * 40` with
`r = (hum - 20) / (ACCEPTABLE_MIN - 20)`. -/
def humBandLowHazard (x : ℚ) : ℚ := (x - 20) / (40 - 20) * 40

/-- Humidity band between `ACCEPTABLE_MIN` and `DEADZONE_MIN`: `40 + r * 60`. -/
def humBandLowIdeal (x : ℚ) : ℚ := 40 + (x - 40) / (55 - 40) * 60

/-- Humidity band between `DEADZONE_MAX` and `ACCEPTABLE_MAX`: `40 + r * 60`. -/
def humBandHighIdeal (x : ℚ) : ℚ := 40 + (80 - x) / (80 - 68) * 60

/-- Humidity high hazard band (`hum > ACCEPTABLE_MAX`): `r * 40` with
`r = (90 - hum) / (90 - ACCEPTABLE_MAX)`. -/
def humBandHighHazard (x : ℚ) : ℚ := (90 - x) / (90 - 80) * 40

/-- Humidity score normalizer (`computeHumScore` in
`services/plantModel.ts`): deadzone [55, 68] scores 100, acceptable band
[40, 80] interpolates 40 → 100, hazard bands interpolate toward 0. -/
def computeHumScore (hum : ℚ) : ℤ :=
  -- ACCEPTABLE_MIN = 40, ACCEPTABLE_MAX = 80, DEADZONE_MIN = 55, DEADZONE_MAX = 68
  if 55 ≤ hum ∧ hum ≤ 68 then 100
  else if hum < 40 ∨ 80 < hum then
    if hum < 40 then max 0 (mathRound (humBandLowHazard hum))
    else max 0 (mathRound (humBandHighHazard hum))
  else if hum < 55 then mathRound (humBandLowIdeal hum)
  else mathRound (humBandHighIdeal hum)

/-- Comfort score (`computeComfortScore` in `services/plantModel.ts`):
rounded mean of the temperature and humidity scores. -/
def computeComfortScore (temp hum : ℚ) : ℤ :=
  mathRound (((computeTempScore temp + computeHumScore hum : ℤ) : ℚ) / 2)

/-- Air-quality near band (quotient in (1.15, 1.5]): `100 - r * 30`. -/
def airBandNear (q : ℚ) : ℚ := 100 - (q - 1.15) / (1.5 - 1.15) * 30

/-- Air-quality moderate band (quotient in (1.5, 2]): `70 - r * 30`. -/
def airBandMid (q : ℚ) : ℚ := 70 - (q - 1.5) / (2 - 1.5) * 30

/-- Air-quality poor band (quotient above 2): `40 - min(1, (q - 2)/2) * 20`. -/
def airBandFar (q : ℚ) : ℚ := 40 - min 1 ((q - 2) / 2) * 20

/-- Air-quality score normalizer (`computeAirQualityScore` in
`services/plantModel.ts`). The module-level MQ-2 baseline is made an
explicit parameter; `relToBase` embeds the source's reading/baseline
quotient; quotients at most 1.15 are the deadzone. -/
def computeAirQualityScore (baseline mq2 : ℚ) : ℤ :=
  if baseline ≤ 0 then 50
  else
    let relToBase : ℚ := mq2 / baseline
    if relToBase ≤ 1.15 then 100
    else if relToBase ≤ 1.5 then mathRound (airBandNear relToBase)
    else if relToBase ≤ 2 then mathRound (airBandMid relToBase)
    else mathRound (airBandFar relToBase)

/-- Bio-signal flat band (`bio < ACCEPTABLE_LOW`): `max(0, bio/2) * 20`. -/
def bioBandFlat (x : ℚ) : ℚ := max 0 (x / 2) * 20

/-- Bio-signal band between `ACCEPTABLE_LOW` and `DEADZONE_MIN`: `20 + r * 80`. -/
def bioBandLow (x : ℚ) : ℚ := 20 + (x - 2) / (4 - 2) * 80

/-- Bio-signal band between `DEADZONE_MAX` and `ACCEPTABLE_HIGH`: `100 - r * 60`. -/
def bioBandHigh (x : ℚ) : ℚ := 100 - (x - 22) / (60 - 22) * 60

/-- Bio-signal noise band (`bio > ACCEPTABLE_HIGH`): `40 - (bio - 60)/2`. -/
def bioBandNoise (x : ℚ) : ℚ := 40 - (x - 60) / 2

/-- Bio-signal score normalizer (`computeBioSignalScore` in
`services/plantModel.ts`): deadzone [4, 22] scores 100; below 2 the signal
is flat/disconnected (0 → 20); (2, 4) interpolates 20 → 100; (22, 60]
interpolates 100 → 40; above 60 the score decays linearly, floored at 0. -/
def computeBioSignalScore (bio : ℚ) : ℤ :=
  -- DEADZONE_MIN = 4, DEADZONE_MAX = 22, ACCEPTABLE_LOW = 2, ACCEPTABLE_HIGH = 60
  if 4 ≤ bio ∧ bio ≤ 22 then 100
  else if bio < 2 then mathRound (bioBandFlat bio)
  else if 2 ≤ bio ∧ bio < 4 then mathRound (bioBandLow bio)
  else if 22 < bio ∧ bio ≤ 60 then mathRound (bioBandHigh bio)
  else max 0 (mathRound (bioBandNoise bio))

example : computeHydrationScore 550 900 = 100 := by
  norm_num [computeHydrationScore, hydCore, mathRound]
example : computeHydrationScore 440 900 = 92 := by
  norm_num [computeHydrationScore, hydCore, hydBandWet, mathRound]
example : computeHydrationScore 460 900 = 73 := by
  norm_num [computeHydrationScore, hydCore, hydBandIdealWet, mathRound]
example : computeTempScore 23 = 100 := by norm_num [computeTempScore]
example : computeHumScore 60 = 100 := by norm_num [computeHumScore]
example : computeComfortScore 23 60 = 100 := by
  norm_num [computeComfortScore, computeTempScore, computeHumScore, mathRound]
example : computeAirQualityScore 70 105 = 70 := by
  norm_num [computeAirQualityScore, airBandNear, mathRound]
example : computeAirQualityScore 70 70 = 100 := by norm_num [computeAirQualityScore]
example : computeBioSignalScore 8 = 100 := by norm_num [computeBioSignalScore]
example : computeBioSignalScore 500 = 0 := by
  norm_num [computeBioSignalScore, bioBandNoise, mathRound]

/-! Helper lemmas about `mathRound` (JS `Math.round`). -/

/-- `mathRound` is monotone. -/
theorem mathRound_mono {x y : ℚ} (h : x ≤ y) : mathRound x ≤ mathRound y :=
  Int.floor_mono (by linarith)

/-- An integer lower bound on the argument bounds `mathRound` from below. -/
theorem le_mathRound {n : ℤ} {x : ℚ} (h : (n : ℚ) ≤ x) : n ≤ mathRound x := by
  rw [mathRound, Int.le_floor]
  linarith

/-- An integer upper bound on the argument bounds `mathRound` from above. -/
theorem mathRound_le {n : ℤ} {x : ℚ} (h : x ≤ (n : ℚ)) : mathRound x ≤ n := by
  rw [mathRound]
  have : (⌊x + 1/2⌋ : ℚ) ≤ (n : ℚ) + 1/2 := le_trans (Int.floor_le _) (by linarith)
  have h2 : (⌊x + 1/2⌋ : ℤ) < n + 1 := by
    by_contra hc
    push_neg at hc
    have : ((n : ℚ) + 1) ≤ ((⌊x + 1/2⌋ : ℤ) : ℚ) := by exact_mod_cast hc
    linarith
  omega

/-! Branch-evaluation lemmas: each normalizer equals the relevant band on the
region selected by the source's guards. -/

/-- Temperature score inside the deadzone. -/
theorem tempScore_dz {t : ℚ} (h1 : 21 ≤ t) (h2 : t ≤ 25) :
    computeTempScore t = 100 := by
  unfold computeTempScore
  rw [if_pos ⟨h1, h2⟩]

/-- Temperature score in the cold hazard band. -/
theorem tempScore_coldHazard {t : ℚ} (h : t < 18) :
    computeTempScore t = max 0 (mathRound (tempBandColdHazard t)) := by
  unfold computeTempScore
  rw [if_neg (by rintro ⟨h1, _⟩; linarith), if_pos (Or.inl h), if_pos h]

/-- Temperature score in the cold ideal band. -/
theorem tempScore_coldIdeal {t : ℚ} (h1 : 18 ≤ t) (h2 : t < 21) :
    computeTempScore t = mathRound (tempBandColdIdeal t) := by
  unfold computeTempScore
  rw [if_neg (by rintro ⟨hh, _⟩; linarith),
    if_neg (by rintro (hh | hh) <;> linarith), if_pos h2]

/-- Temperature score in the hot ideal band. -/
theorem tempScore_hotIdeal {t : ℚ} (h1 : 25 < t) (h2 : t ≤ 29) :
    computeTempScore t = mathRound (tempBandHotIdeal t) := by
  unfold computeTempScore
  rw [if_neg (by rintro ⟨_, hh⟩; linarith),
    if_neg (by rintro (hh | hh) <;> linarith), if_neg (by linarith)]

/-- Temperature score in the hot hazard band. -/
theorem tempScore_hotHazard {t : ℚ} (h : 29 < t) :
    computeTempScore t = max 0 (mathRound (tempBandHotHazard t)) := by
  unfold computeTempScore
  rw [if_neg (by rintro ⟨_, hh⟩; linarith), if_pos (Or.inr h),
    if_neg (by linarith)]

/-- On or below the lower deadzone edge the temperature score is
non-decreasing: moving toward the deadzone cannot lower the score. -/
theorem tempScore_mono_below {x y : ℚ} (hxy : x ≤ y) (hy : y ≤ 21) :
    computeTempScore x ≤ computeTempScore y := by
  rcases lt_or_le x 18 with hx18 | hx18
  · rcases lt_or_le y 18 with hy18 | hy18
    · rw [tempScore_coldHazard hx18, tempScore_coldHazard hy18]
      exact max_le_max le_rfl (mathRound_mono (by unfold tempBandColdHazard; linarith))
    · rcases lt_or_le y 21 with hy21 | hy21
      · rw [tempScore_coldHazard hx18, tempScore_coldIdeal hy18 hy21]
        refine max_le ?_ ?_
        · exact le_mathRound (by unfold tempBandColdIdeal; push_cast; linarith)
        · exact le_trans (mathRound_le (n := 40) (by unfold tempBandColdHazard; push_cast; linarith))
            (le_mathRound (by unfold tempBandColdIdeal; push_cast; linarith))
      · have hy' : y = 21 := le_antisymm hy hy21
        rw [tempScore_coldHazard hx18, tempScore_dz (t := y) (by linarith) (by linarith)]
        refine max_le (by norm_num) (mathRound_le (n := 100) ?_)
        unfold tempBandColdHazard
        push_cast
        linarith
  · rcases lt_or_le y 21 with hy21 | hy21
    · rw [tempScore_coldIdeal hx18 (by linarith), tempScore_coldIdeal (by linarith) hy21]
      exact mathRound_mono (by unfold tempBandColdIdeal; linarith)
    · have hy' : y = 21 := le_antisymm hy hy21
      rcases lt_or_le x 21 with hx21 | hx21
      · rw [tempScore_coldIdeal hx18 hx21, tempScore_dz (by linarith) (by linarith)]
        exact mathRound_le (by unfold tempBandColdIdeal; push_cast; linarith)
      · rw [tempScore_dz hx21 (by linarith), tempScore_dz (by linarith) (by linarith)]

/-- On or above the upper deadzone edge the temperature score is
non-increasing: moving away from the deadzone cannot raise the score. -/
theorem tempScore_mono_above {x y : ℚ} (hx : 25 ≤ x) (hxy : x ≤ y) :
    computeTempScore y ≤ computeTempScore x := by
  rcases le_or_lt y 29 with hy29 | hy29
  · rcases eq_or_lt_of_le hx with hx' | hx'
    · rw [tempScore_dz (t := x) (by linarith) (by linarith)]
      rcases eq_or_lt_of_le hxy with hyx' | hyx'
      · rw [tempScore_dz (t := y) (by linarith) (by linarith)]
      · rw [tempScore_hotIdeal (by linarith) hy29]
        exact mathRound_le (by unfold tempBandHotIdeal; push_cast; linarith)
    · rw [tempScore_hotIdeal hx' (by linarith), tempScore_hotIdeal (by linarith) hy29]
      exact mathRound_mono (by unfold tempBandHotIdeal; linarith)
  · rw [tempScore_hotHazard hy29]
    rcases eq_or_lt_of_le hx with hx' | hx'
    · rw [tempScore_dz (t := x) (by linarith) (by linarith)]
      refine max_le (by norm_num) (mathRound_le (n := 100) ?_)
      unfold tempBandHotHazard
      push_cast
      linarith
    · rcases le_or_lt x 29 with hx29 | hx29
      · rw [tempScore_hotIdeal hx' hx29]
        refine max_le ?_ ?_
        · exact le_mathRound (by unfold tempBandHotIdeal; push_cast; linarith)
        · exact le_trans (mathRound_le (n := 40) (by unfold tempBandHotHazard; push_cast; linarith))
            (le_mathRound (by unfold tempBandHotIdeal; push_cast; linarith))
      · rw [tempScore_hotHazard hx29]
        exact max_le_max le_rfl (mathRound_mono (by unfold tempBandHotHazard; linarith))

/-- Humidity score inside the deadzone. -/
theorem humScore_dz {t : ℚ} (h1 : 55 ≤ t) (h2 : t ≤ 68) :
    computeHumScore t = 100 := by
  unfold computeHumScore
  rw [if_pos ⟨h1, h2⟩]

/-- Humidity score in the low hazard band. -/
theorem humScore_lowHazard {t : ℚ} (h : t < 40) :
    computeHumScore t = max 0 (mathRound (humBandLowHazard t)) := by
  unfold computeHumScore
  rw [if_neg (by rintro ⟨h1, _⟩; linarith), if_pos (Or.inl h), if_pos h]

/-- Humidity score in the low ideal band. -/
theorem humScore_lowIdeal {t : ℚ} (h1 : 40 ≤ t) (h2 : t < 55) :
    computeHumScore t = mathRound (humBandLowIdeal t) := by
  unfold computeHumScore
  rw [if_neg (by rintro ⟨hh, _⟩; linarith),
    if_neg (by rintro (hh | hh) <;> linarith), if_pos h2]

/-- Humidity score in the high ideal band. -/
theorem humScore_highIdeal {t : ℚ} (h1 : 68 < t) (h2 : t ≤ 80) :
    computeHumScore t = mathRound (humBandHighIdeal t) := by
  unfold computeHumScore
  rw [if_neg (by rintro ⟨_, hh⟩; linarith),
    if_neg (by rintro (hh | hh) <;> linarith), if_neg (by linarith)]

/-- Humidity score in the high hazard band. -/
theorem humScore_highHazard {t : ℚ} (h : 80 < t) :
    computeHumScore t = max 0 (mathRound (humBandHighHazard t)) := by
  unfold computeHumScore
  rw [if_neg (by rintro ⟨_, hh⟩; linarith), if_pos (Or.inr h),
    if_neg (by linarith)]

/-- On or below the lower deadzone edge the humidity score is
non-decreasing toward the deadzone. -/
theorem humScore_mono_below {x y : ℚ} (hxy : x ≤ y) (hy : y ≤ 55) :
    computeHumScore x ≤ computeHumScore y := by
  rcases lt_or_le x 40 with hx40 | hx40
  · rcases lt_or_le y 40 with hy40 | hy40
    · rw [humScore_lowHazard hx40, humScore_lowHazard hy40]
      exact max_le_max le_rfl (mathRound_mono (by unfold humBandLowHazard; linarith))
    · rcases lt_or_le y 55 with hy55 | hy55
      · rw [humScore_lowHazard hx40, humScore_lowIdeal hy40 hy55]
        refine max_le ?_ ?_
        · exact le_mathRound (by unfold humBandLowIdeal; push_cast; linarith)
        · exact le_trans (mathRound_le (n := 40) (by unfold humBandLowHazard; push_cast; linarith))
            (le_mathRound (by unfold humBandLowIdeal; push_cast; linarith))
      · have hy' : y = 55 := le_antisymm hy hy55
        rw [humScore_lowHazard hx40, humScore_dz (t := y) (by linarith) (by linarith)]
        refine max_le (by norm_num) (mathRound_le (n := 100) ?_)
        unfold humBandLowHazard
        push_cast
        linarith
  · rcases lt_or_le y 55 with hy55 | hy55
    · rw [humScore_lowIdeal hx40 (by linarith), humScore_lowIdeal (by linarith) hy55]
      exact mathRound_mono (by unfold humBandLowIdeal; linarith)
    · have hy' : y = 55 := le_antisymm hy hy55
      rcases lt_or_le x 55 with hx55 | hx55
      · rw [humScore_lowIdeal hx40 hx55, humScore_dz (t := y) (by linarith) (by linarith)]
        exact mathRound_le (by unfold humBandLowIdeal; push_cast; linarith)
      · rw [humScore_dz hx55 (by linarith), humScore_dz (t := y) (by linarith) (by linarith)]

/-- On or above the upper deadzone edge the humidity score is
non-increasing away from the deadzone. -/
theorem humScore_mono_above {x y : ℚ} (hx : 68 ≤ x) (hxy : x ≤ y) :
    computeHumScore y ≤ computeHumScore x := by
  rcases le_or_lt y 80 with hy80 | hy80
  · rcases eq_or_lt_of_le hx with hx' | hx'
    · rw [humScore_dz (t := x) (by linarith) (by linarith)]
      rcases eq_or_lt_of_le hxy with hyx' | hyx'
      · rw [humScore_dz (t := y) (by linarith) (by linarith)]
      · rw [humScore_highIdeal (by linarith) hy80]
        exact mathRound_le (by unfold humBandHighIdeal; push_cast; linarith)
    · rw [humScore_highIdeal hx' (by linarith), humScore_highIdeal (by linarith) hy80]
      exact mathRound_mono (by unfold humBandHighIdeal; linarith)
  · rw [humScore_highHazard hy80]
    rcases eq_or_lt_of_le hx with hx' | hx'
    · rw [humScore_dz (t := x) (by linarith) (by linarith)]
      refine max_le (by norm_num) (mathRound_le (n := 100) ?_)
      unfold humBandHighHazard
      push_cast
      linarith
    · rcases le_or_lt x 80 with hx80 | hx80
      · rw [humScore_highIdeal hx' hx80]
        refine max_le ?_ ?_
        · exact le_mathRound (by unfold humBandHighIdeal; push_cast; linarith)
        · exact le_trans (mathRound_le (n := 40) (by unfold humBandHighHazard; push_cast; linarith))
            (le_mathRound (by unfold humBandHighIdeal; push_cast; linarith))
      · rw [humScore_highHazard hx80]
        exact max_le_max le_rfl (mathRound_mono (by unfold humBandHighHazard; linarith))

/-- Bio-signal score inside the deadzone. -/
theorem bioScore_dz {t : ℚ} (h1 : 4 ≤ t) (h2 : t ≤ 22) :
    computeBioSignalScore t = 100 := by
  unfold computeBioSignalScore
  rw [if_pos ⟨h1, h2⟩]

/-- Bio-signal score in the flat/disconnected band. -/
theorem bioScore_flat {t : ℚ} (h : t < 2) :
    computeBioSignalScore t = mathRound (bioBandFlat t) := by
  unfold computeBioSignalScore
  rw [if_neg (by rintro ⟨h1, _⟩; linarith), if_pos h]

/-- Bio-signal score in the low transition band. -/
theorem bioScore_low {t : ℚ} (h1 : 2 ≤ t) (h2 : t < 4) :
    computeBioSignalScore t = mathRound (bioBandLow t) := by
  unfold computeBioSignalScore
  rw [if_neg (by rintro ⟨hh, _⟩; linarith), if_neg (by linarith), if_pos ⟨h1, h2⟩]

/-- Bio-signal score in the high transition band. -/
theorem bioScore_high {t : ℚ} (h1 : 22 < t) (h2 : t ≤ 60) :
    computeBioSignalScore t = mathRound (bioBandHigh t) := by
  unfold computeBioSignalScore
  rw [if_neg (by rintro ⟨_, hh⟩; linarith), if_neg (by linarith),
    if_neg (by rintro ⟨_, hh⟩; linarith), if_pos ⟨h1, h2⟩]

/-- Bio-signal score in the noisy band. -/
theorem bioScore_noise {t : ℚ} (h : 60 < t) :
    computeBioSignalScore t = max 0 (mathRound (bioBandNoise t)) := by
  unfold computeBioSignalScore
  rw [if_neg (by rintro ⟨_, hh⟩; linarith), if_neg (by linarith),
    if_neg (by rintro ⟨_, hh⟩; linarith), if_neg (by rintro ⟨_, hh⟩; linarith)]

/-- On or below the lower deadzone edge the bio-signal score is
non-decreasing toward the deadzone. -/
theorem bioScore_mono_below {x y : ℚ} (hxy : x ≤ y) (hy : y ≤ 4) :
    computeBioSignalScore x ≤ computeBioSignalScore y := by
  rcases lt_or_le x 2 with hx2 | hx2
  · rcases lt_or_le y 2 with hy2 | hy2
    · rw [bioScore_flat hx2, bioScore_flat hy2]
      refine mathRound_mono ?_
      unfold bioBandFlat
      have hmx : max 0 (x / 2) ≤ max 0 (y / 2) := max_le_max le_rfl (by linarith)
      linarith
    · have hfl : bioBandFlat x ≤ 20 := by
        unfold bioBandFlat
        have hmx : max 0 (x / 2) ≤ 1 := max_le (by norm_num) (by linarith)
        linarith
      rcases lt_or_le y 4 with hy4 | hy4
      · rw [bioScore_flat hx2, bioScore_low hy2 hy4]
        exact le_trans (mathRound_le (n := 20) (by push_cast; linarith))
          (le_mathRound (by unfold bioBandLow; push_cast; linarith))
      · have hy' : y = 4 := le_antisymm hy hy4
        rw [bioScore_flat hx2, bioScore_dz (t := y) (by linarith) (by linarith)]
        exact mathRound_le (by push_cast; linarith)
  · rcases lt_or_le y 4 with hy4 | hy4
    · rw [bioScore_low hx2 (by linarith), bioScore_low (by linarith) hy4]
      exact mathRound_mono (by unfold bioBandLow; linarith)
    · have hy' : y = 4 := le_antisymm hy hy4
      rcases lt_or_le x 4 with hx4 | hx4
      · rw [bioScore_low hx2 hx4, bioScore_dz (t := y) (by linarith) (by linarith)]
        exact mathRound_le (by unfold bioBandLow; push_cast; linarith)
      · rw [bioScore_dz hx4 (by linarith), bioScore_dz (t := y) (by linarith) (by linarith)]

/-- On or above the upper deadzone edge the bio-signal score is
non-increasing away from the deadzone. -/
theorem bioScore_mono_above {x y : ℚ} (hx : 22 ≤ x) (hxy : x ≤ y) :
    computeBioSignalScore y ≤ computeBioSignalScore x := by
  rcases le_or_lt y 60 with hy60 | hy60
  · rcases eq_or_lt_of_le hx with hx' | hx'
    · rw [bioScore_dz (t := x) (by linarith) (by linarith)]
      rcases eq_or_lt_of_le hxy with hyx' | hyx'
      · rw [bioScore_dz (t := y) (by linarith) (by linarith)]
      · rw [bioScore_high (by linarith) hy60]
        exact mathRound_le (by unfold bioBandHigh; push_cast; linarith)
    · rw [bioScore_high hx' (by linarith), bioScore_high (by linarith) hy60]
      exact mathRound_mono (by unfold bioBandHigh; linarith)
  · rw [bioScore_noise hy60]
    rcases eq_or_lt_of_le hx with hx' | hx'
    · rw [bioScore_dz (t := x) (by linarith) (by linarith)]
      refine max_le (by norm_num) (mathRound_le (n := 100) ?_)
      unfold bioBandNoise
      push_cast
      linarith
    · rcases le_or_lt x 60 with hx60 | hx60
      · rw [bioScore_high hx' hx60]
        refine max_le ?_ ?_
        · exact le_mathRound (by unfold bioBandHigh; push_cast; linarith)
        · exact le_trans (mathRound_le (n := 40) (by unfold bioBandNoise; push_cast; linarith))
            (le_mathRound (by unfold bioBandHigh; push_cast; linarith))
      · rw [bioScore_noise hx60]
        exact max_le_max le_rfl (mathRound_mono (by unfold bioBandNoise; linarith))

/-- Air-quality score with unset/invalid baseline. -/
theorem airScore_noBaseline {b m : ℚ} (hb : b ≤ 0) :
    computeAirQualityScore b m = 50 := by
  unfold computeAirQualityScore
  rw [if_pos hb]

/-- Air-quality score inside the deadzone (quotient at most 1.15). -/
theorem airScore_dz {b m : ℚ} (hb : 0 < b) (h : m / b ≤ 1.15) :
    computeAirQualityScore b m = 100 := by
  unfold computeAirQualityScore
  rw [if_neg (by linarith), if_pos h]

/-- Air-quality score in the near band (quotient in (1.15, 1.5]). -/
theorem airScore_near {b m : ℚ} (hb : 0 < b) (h1 : 1.15 < m / b) (h2 : m / b ≤ 1.5) :
    computeAirQualityScore b m = mathRound (airBandNear (m / b)) := by
  unfold computeAirQualityScore
  rw [if_neg (by linarith), if_neg (by linarith), if_pos h2]

/-- Air-quality score in the moderate band (quotient in (1.5, 2]). -/
theorem airScore_mid {b m : ℚ} (hb : 0 < b) (h1 : 1.5 < m / b) (h2 : m / b ≤ 2) :
    computeAirQualityScore b m = mathRound (airBandMid (m / b)) := by
  unfold computeAirQualityScore
  rw [if_neg (by linarith), if_neg (by linarith), if_neg (by linarith), if_pos h2]

/-- Air-quality score in the poor band (quotient above 2). -/
theorem airScore_far {b m : ℚ} (hb : 0 < b) (h : 2 < m / b) :
    computeAirQualityScore b m = mathRound (airBandFar (m / b)) := by
  unfold computeAirQualityScore
  rw [if_neg (by linarith), if_neg (by linarith), if_neg (by linarith),
    if_neg (by linarith)]

/-- Bounds for the air-quality near band. -/
theorem airBandNear_bounds {q : ℚ} (h1 : 1.15 ≤ q) (h2 : q ≤ 1.5) :
    70 ≤ airBandNear q ∧ airBandNear q ≤ 100 := by
  unfold airBandNear
  norm_num
  constructor <;> linarith

/-- Bounds for the air-quality moderate band. -/
theorem airBandMid_bounds {q : ℚ} (h1 : 1.5 ≤ q) (h2 : q ≤ 2) :
    40 ≤ airBandMid q ∧ airBandMid q ≤ 70 := by
  unfold airBandMid
  norm_num
  constructor <;> linarith

/-- Upper bound for the air-quality poor band. -/
theorem airBandFar_le {q : ℚ} (h : 2 ≤ q) : airBandFar q ≤ 40 := by
  unfold airBandFar
  have h0 : (0 : ℚ) ≤ min 1 ((q - 2) / 2) := le_min (by norm_num) (by linarith)
  linarith

/-- The near band is non-increasing. -/
theorem airBandNear_anti {a b : ℚ} (h : a ≤ b) : airBandNear b ≤ airBandNear a := by
  unfold airBandNear
  norm_num
  linarith

/-- The moderate band is non-increasing. -/
theorem airBandMid_anti {a b : ℚ} (h : a ≤ b) : airBandMid b ≤ airBandMid a := by
  unfold airBandMid
  norm_num
  linarith

/-- The poor band is non-increasing. -/
theorem airBandFar_anti {a b : ℚ} (h : a ≤ b) : airBandFar b ≤ airBandFar a := by
  unfold airBandFar
  have hmin : min 1 ((a - 2) / 2) ≤ min 1 ((b - 2) / 2) :=
    min_le_min le_rfl (by linarith)
  linarith

/-- With a positive baseline the air-quality score is non-increasing in the
raw MQ-2 reading: worse air never raises the score. -/
theorem airScore_mono {b x y : ℚ} (hb : 0 < b) (hxy : x ≤ y) :
    computeAirQualityScore b y ≤ computeAirQualityScore b x := by
  have hq : x / b ≤ y / b := by
    apply div_le_div_of_nonneg_right hxy hb.le
  rcases le_or_lt (y / b) 1.15 with hy1 | hy1
  · rw [airScore_dz hb (le_trans hq hy1), airScore_dz hb hy1]
  · rcases le_or_lt (y / b) 1.5 with hy2 | hy2
    · rw [airScore_near hb hy1 hy2]
      rcases le_or_lt (x / b) 1.15 with hx1 | hx1
      · rw [airScore_dz hb hx1]
        exact mathRound_le (by push_cast; exact (airBandNear_bounds hy1.le hy2).2)
      · rw [airScore_near hb hx1 (le_trans hq hy2)]
        exact mathRound_mono (airBandNear_anti hq)
    · rcases le_or_lt (y / b) 2 with hy3 | hy3
      · rw [airScore_mid hb hy2 hy3]
        rcases le_or_lt (x / b) 1.15 with hx1 | hx1
        · rw [airScore_dz hb hx1]
          exact mathRound_le (by push_cast; linarith [(airBandMid_bounds hy2.le hy3).2])
        · rcases le_or_lt (x / b) 1.5 with hx2 | hx2
          · rw [airScore_near hb hx1 hx2]
            exact le_trans
              (mathRound_le (n := 70) (by push_cast; exact (airBandMid_bounds hy2.le hy3).2))
              (le_mathRound (by push_cast; exact (airBandNear_bounds hx1.le hx2).1))
          · rw [airScore_mid hb hx2 (le_trans hq hy3)]
            exact mathRound_mono (airBandMid_anti hq)
      · rw [airScore_far hb hy3]
        have hyfar : airBandFar (y / b) ≤ 40 := airBandFar_le hy3.le
        rcases le_or_lt (x / b) 1.15 with hx1 | hx1
        · rw [airScore_dz hb hx1]
          exact mathRound_le (by push_cast; linarith)
        · rcases le_or_lt (x / b) 1.5 with hx2 | hx2
          · rw [airScore_near hb hx1 hx2]
            exact le_trans (mathRound_le (n := 40) (by push_cast; linarith))
              (le_mathRound (by push_cast; linarith [(airBandNear_bounds hx1.le hx2).1]))
          · rcases le_or_lt (x / b) 2 with hx3 | hx3
            · rw [airScore_mid hb hx2 hx3]
              exact le_trans (mathRound_le (n := 40) (by push_cast; linarith))
                (le_mathRound (by push_cast; linarith [(airBandMid_bounds hx2.le hx3).1]))
            · rw [airScore_far hb hx3]
              exact mathRound_mono (airBandFar_anti hq)

/-- With a dry raindrop reading (`rain ≥ 400`) the cushion branch of
`computeHydrationScore` is inert. -/
theorem hydScore_noCushion {s r : ℚ} (hr : 400 ≤ r) :
    computeHydrationScore s r
      = max 0 (min 100 (mathRound (hydCore (max 350 (min 850 s))))) := by
  simp only [computeHydrationScore]
  rw [if_neg (by rintro ⟨h1, _⟩; linarith)]

/-- Hydration core inside the deadzone. -/
theorem hydCore_dz {c : ℚ} (h1 : 480 ≤ c) (h2 : c ≤ 620) : hydCore c = 100 := by
  unfold hydCore
  rw [if_pos ⟨h1, h2⟩]

/-- Hydration core in the wet band. -/
theorem hydCore_wet {c : ℚ} (h : c < 450) : hydCore c = hydBandWet c := by
  unfold hydCore
  rw [if_neg (by rintro ⟨h1, _⟩; linarith), if_pos h]

/-- Hydration core in the ideal-wet band. -/
theorem hydCore_idealWet {c : ℚ} (h1 : 450 ≤ c) (h2 : c < 480) :
    hydCore c = hydBandIdealWet c := by
  unfold hydCore
  rw [if_neg (by rintro ⟨hh, _⟩; linarith), if_neg (by linarith), if_pos h2]

/-- Hydration core in the ideal-dry band. -/
theorem hydCore_idealDry {c : ℚ} (h1 : 620 < c) (h2 : c ≤ 700) :
    hydCore c = hydBandIdealDry c := by
  unfold hydCore
  rw [if_neg (by rintro ⟨_, hh⟩; linarith), if_neg (by linarith),
    if_neg (by linarith), if_pos h2]

/-- Hydration core in the dry band. -/
theorem hydCore_dry {c : ℚ} (h : 700 < c) : hydCore c = hydBandDry c := by
  unfold hydCore
  rw [if_neg (by rintro ⟨_, hh⟩; linarith), if_neg (by linarith),
    if_neg (by linarith), if_neg (by linarith)]

/-- On or above the upper deadzone edge the hydration core is non-increasing. -/
theorem hydCore_anti_dry {a b : ℚ} (ha : 620 ≤ a) (hab : a ≤ b) :
    hydCore b ≤ hydCore a := by
  rcases eq_or_lt_of_le ha with ha' | ha'
  · rw [hydCore_dz (c := a) (by linarith) (by linarith)]
    rcases eq_or_lt_of_le hab with hab' | hab'
    · rw [hydCore_dz (c := b) (by linarith) (by linarith)]
    · rcases le_or_lt b 700 with hb7 | hb7
      · rw [hydCore_idealDry (by linarith) hb7]
        unfold hydBandIdealDry
        linarith
      · rw [hydCore_dry hb7]
        unfold hydBandDry
        linarith
  · rcases le_or_lt a 700 with ha7 | ha7
    · rw [hydCore_idealDry ha' ha7]
      rcases le_or_lt b 700 with hb7 | hb7
      · rw [hydCore_idealDry (by linarith) hb7]
        unfold hydBandIdealDry
        linarith
      · rw [hydCore_dry hb7]
        unfold hydBandIdealDry hydBandDry
        linarith
    · rw [hydCore_dry ha7, hydCore_dry (by linarith)]
      unfold hydBandDry
      linarith

/-- Below 450 the hydration core is non-decreasing. -/
theorem hydCore_mono_wet {a b : ℚ} (hab : a ≤ b) (hb : b < 450) :
    hydCore a ≤ hydCore b := by
  rw [hydCore_wet (by linarith), hydCore_wet hb]
  unfold hydBandWet
  linarith

/-- Between 450 and the lower deadzone edge the hydration core is
non-decreasing. -/
theorem hydCore_mono_idealWet {a b : ℚ} (ha : 450 ≤ a) (hab : a ≤ b)
    (hb : b ≤ 480) : hydCore a ≤ hydCore b := by
  rcases eq_or_lt_of_le hb with hb' | hb'
  · rcases eq_or_lt_of_le hab with hab' | hab'
    · rw [hab']
    · rw [hydCore_idealWet ha (by linarith), hydCore_dz (c := b) (by linarith) (by linarith)]
      unfold hydBandIdealWet
      linarith
  · rw [hydCore_idealWet ha (by linarith), hydCore_idealWet (by linarith) hb']
    unfold hydBandIdealWet
    linarith

/-- The outer round-and-clamp of `computeHydrationScore` is monotone. -/
theorem hydOuter_mono {a b : ℚ} (h : a ≤ b) :
    max 0 (min 100 (mathRound a)) ≤ max 0 (min 100 (mathRound b)) :=
  max_le_max le_rfl (min_le_min le_rfl (mathRound_mono h))

/-- Dry side of the hydration score: with a dry raindrop reading, the score
is non-increasing in soil dryness above the deadzone. -/
theorem hydScore_mono_dry {x y r : ℚ} (hr : 400 ≤ r) (hx : 620 ≤ x)
    (hxy : x ≤ y) : computeHydrationScore y r ≤ computeHydrationScore x r := by
  rw [hydScore_noCushion hr, hydScore_noCushion hr]
  refine hydOuter_mono (hydCore_anti_dry ?_ ?_)
  · exact le_trans (le_min (by norm_num) hx) (le_max_right 350 _)
  · exact max_le_max le_rfl (min_le_min le_rfl hxy)

/-- Far-wet side of the hydration score: with a dry raindrop reading, the
score is non-decreasing on soil values below 450. -/
theorem hydScore_mono_wetFar {x y r : ℚ} (hr : 400 ≤ r) (hxy : x ≤ y)
    (hy : y < 450) : computeHydrationScore x r ≤ computeHydrationScore y r := by
  rw [hydScore_noCushion hr, hydScore_noCushion hr]
  refine hydOuter_mono (hydCore_mono_wet ?_ ?_)
  · exact max_le_max le_rfl (min_le_min le_rfl hxy)
  · exact max_lt (by norm_num) (lt_of_le_of_lt (min_le_right 850 y) hy)

/-- Near-wet side of the hydration score: with a dry raindrop reading, the
score is non-decreasing on soil values between 450 and the deadzone edge. -/
theorem hydScore_mono_wetNear {x y r : ℚ} (hr : 400 ≤ r) (hx : 450 ≤ x)
    (hxy : x ≤ y) (hy : y ≤ 480) :
    computeHydrationScore x r ≤ computeHydrationScore y r := by
  rw [hydScore_noCushion hr, hydScore_noCushion hr]
  refine hydCore_mono_idealWet ?_ ?_ ?_ |> hydOuter_mono
  · exact le_trans (le_min (by norm_num) hx) (le_max_right 350 _)
  · exact max_le_max le_rfl (min_le_min le_rfl hxy)
  · exact max_le (by norm_num) (le_trans (min_le_right 850 y) hy)

/-! Range lemmas: every normalizer yields an integer in [0, 100]. -/

/-- The hydration score is clamped to [0, 100] for all inputs. -/
theorem hydScore_range (soil rain : ℚ) :
    0 ≤ computeHydrationScore soil rain ∧ computeHydrationScore soil rain ≤ 100 := by
  unfold computeHydrationScore
  exact ⟨le_max_left 0 _, max_le (by norm_num) (min_le_left 100 _)⟩

/-- The temperature score lies in [0, 100] for all inputs. -/
theorem tempScore_range (t : ℚ) :
    0 ≤ computeTempScore t ∧ computeTempScore t ≤ 100 := by
  rcases lt_or_le t 18 with h | h
  · rw [tempScore_coldHazard h]
    refine ⟨le_max_left 0 _, max_le (by norm_num) (mathRound_le (n := 100) ?_)⟩
    unfold tempBandColdHazard
    push_cast
    linarith
  · rcases lt_or_le t 21 with h2 | h2
    · rw [tempScore_coldIdeal h h2]
      constructor
      · exact le_mathRound (by unfold tempBandColdIdeal; push_cast; linarith)
      · exact mathRound_le (by unfold tempBandColdIdeal; push_cast; linarith)
    · rcases le_or_lt t 25 with h3 | h3
      · rw [tempScore_dz h2 h3]
        norm_num
      · rcases le_or_lt t 29 with h4 | h4
        · rw [tempScore_hotIdeal h3 h4]
          constructor
          · exact le_mathRound (by unfold tempBandHotIdeal; push_cast; linarith)
          · exact mathRound_le (by unfold tempBandHotIdeal; push_cast; linarith)
        · rw [tempScore_hotHazard h4]
          refine ⟨le_max_left 0 _, max_le (by norm_num) (mathRound_le (n := 100) ?_)⟩
          unfold tempBandHotHazard
          push_cast
          linarith

/-- The humidity score lies in [0, 100] for all inputs. -/
theorem humScore_range (t : ℚ) :
    0 ≤ computeHumScore t ∧ computeHumScore t ≤ 100 := by
  rcases lt_or_le t 40 with h | h
  · rw [humScore_lowHazard h]
    refine ⟨le_max_left 0 _, max_le (by norm_num) (mathRound_le (n := 100) ?_)⟩
    unfold humBandLowHazard
    push_cast
    linarith
  · rcases lt_or_le t 55 with h2 | h2
    · rw [humScore_lowIdeal h h2]
      constructor
      · exact le_mathRound (by unfold humBandLowIdeal; push_cast; linarith)
      · exact mathRound_le (by unfold humBandLowIdeal; push_cast; linarith)
    · rcases le_or_lt t 68 with h3 | h3
      · rw [humScore_dz h2 h3]
        norm_num
      · rcases le_or_lt t 80 with h4 | h4
        · rw [humScore_highIdeal h3 h4]
          constructor
          · exact le_mathRound (by unfold humBandHighIdeal; push_cast; linarith)
          · exact mathRound_le (by unfold humBandHighIdeal; push_cast; linarith)
        · rw [humScore_highHazard h4]
          refine ⟨le_max_left 0 _, max_le (by norm_num) (mathRound_le (n := 100) ?_)⟩
          unfold humBandHighHazard
          push_cast
          linarith

/-- The comfort score lies in [0, 100] for all inputs. -/
theorem comfortScore_range (t h : ℚ) :
    0 ≤ computeComfortScore t h ∧ computeComfortScore t h ≤ 100 := by
  obtain ⟨ht0, ht1⟩ := tempScore_range t
  obtain ⟨hh0, hh1⟩ := humScore_range h
  unfold computeComfortScore
  constructor
  · refine le_mathRound ?_
    push_cast
    have : (0 : ℚ) ≤ (computeTempScore t : ℚ) + (computeHumScore h : ℚ) :=
      add_nonneg (by exact_mod_cast ht0) (by exact_mod_cast hh0)
    linarith
  · refine mathRound_le ?_
    push_cast
    have h1 : ((computeTempScore t : ℚ)) ≤ 100 := by exact_mod_cast ht1
    have h2 : ((computeHumScore h : ℚ)) ≤ 100 := by exact_mod_cast hh1
    linarith

/-- The air-quality score lies in [0, 100] for all baselines and inputs. -/
theorem airScore_range (b m : ℚ) :
    0 ≤ computeAirQualityScore b m ∧ computeAirQualityScore b m ≤ 100 := by
  rcases le_or_lt b 0 with hb | hb
  · rw [airScore_noBaseline hb]
    norm_num
  · rcases le_or_lt (m / b) 1.15 with h1 | h1
    · rw [airScore_dz hb h1]
      norm_num
    · rcases le_or_lt (m / b) 1.5 with h2 | h2
      · rw [airScore_near hb h1 h2]
        obtain ⟨hl, hu⟩ := airBandNear_bounds h1.le h2
        exact ⟨le_mathRound (by push_cast; linarith), mathRound_le (by push_cast; linarith)⟩
      · rcases le_or_lt (m / b) 2 with h3 | h3
        · rw [airScore_mid hb h2 h3]
          obtain ⟨hl, hu⟩ := airBandMid_bounds h2.le h3
          exact ⟨le_mathRound (by push_cast; linarith), mathRound_le (by push_cast; linarith)⟩
        · rw [airScore_far hb h3]
          have hu : airBandFar (m / b) ≤ 40 := airBandFar_le h3.le
          have hl : 20 ≤ airBandFar (m / b) := by
            unfold airBandFar
            have : min 1 ((m / b - 2) / 2) ≤ 1 := min_le_left _ _
            linarith
          exact ⟨le_mathRound (by push_cast; linarith), mathRound_le (by push_cast; linarith)⟩

/-- The bio-signal score lies in [0, 100] for all inputs. -/
theorem bioScore_range (t : ℚ) :
    0 ≤ computeBioSignalScore t ∧ computeBioSignalScore t ≤ 100 := by
  rcases lt_or_le t 2 with h | h
  · rw [bioScore_flat h]
    have hm0 : (0 : ℚ) ≤ max 0 (t / 2) := le_max_left 0 _
    have hm1 : max 0 (t / 2) ≤ 1 := max_le (by norm_num) (by linarith)
    constructor
    · exact le_mathRound (by unfold bioBandFlat; push_cast; linarith)
    · exact mathRound_le (by unfold bioBandFlat; push_cast; linarith)
  · rcases lt_or_le t 4 with h2 | h2
    · rw [bioScore_low h h2]
      constructor
      · exact le_mathRound (by unfold bioBandLow; push_cast; linarith)
      · exact mathRound_le (by unfold bioBandLow; push_cast; linarith)
    · rcases le_or_lt t 22 with h3 | h3
      · rw [bioScore_dz h2 h3]
        norm_num
      · rcases le_or_lt t 60 with h4 | h4
        · rw [bioScore_high h3 h4]
          constructor
          · exact le_mathRound (by unfold bioBandHigh; push_cast; linarith)
          · exact mathRound_le (by unfold bioBandHigh; push_cast; linarith)
        · rw [bioScore_noise h4]
          refine ⟨le_max_left 0 _, max_le (by norm_num) (mathRound_le (n := 100) ?_)⟩
          unfold bioBandNoise
          push_cast
          linarith

/-- C1 (counterexample): with the wetness argument fixed at 900 (≥ 400),
soil 440 and soil 460 both lie on the wet side of the hydration deadzone
[480, 620] (centre 550), 440 is farther from the deadzone centre, yet it
scores strictly more (92 > 73): the hydration score is not monotonically
non-increasing in the distance from the deadzone centre. Moreover the wet
band reaches 100 at the 450 boundary while the adjacent band starts at 60
there, a discontinuous jump of 40 at a threshold. -/
theorem C1_counterexample :
    computeHydrationScore 440 900 = 92 ∧
    computeHydrationScore 460 900 = 73 ∧
    (550 : ℚ) - 440 > 550 - 460 ∧
    hydBandWet 450 = 100 ∧ hydBandIdealWet 450 = 60 := by
  refine ⟨?_, ?_, by norm_num, ?_, ?_⟩
  · norm_num [computeHydrationScore, hydCore, hydBandWet, mathRound]
  · norm_num [computeHydrationScore, hydCore, hydBandIdealWet, mathRound]
  · norm_num [hydBandWet]
  · norm_num [hydBandIdealWet]

/-- C1 (amended): monotone non-increase of the score as the input moves
away from the deadzone, and agreement of adjacent bands at every band
boundary, hold for `computeTempScore`, `computeHumScore`,
`computeAirQualityScore` (any positive baseline) and
`computeBioSignalScore`; for `computeHydrationScore` with wetness ≥ 400
they hold on the dry side of the deadzone, while on the wet side
monotonicity holds only within each band and the two wet bands disagree at
the soil = 450 boundary (100 vs 60), the discontinuity exhibited by the
counterexample. -/
theorem C1_amended :
    (∀ x y : ℚ, x ≤ y → y ≤ 21 → computeTempScore x ≤ computeTempScore y) ∧
    (∀ x y : ℚ, 25 ≤ x → x ≤ y → computeTempScore y ≤ computeTempScore x) ∧
    (∀ x y : ℚ, x ≤ y → y ≤ 55 → computeHumScore x ≤ computeHumScore y) ∧
    (∀ x y : ℚ, 68 ≤ x → x ≤ y → computeHumScore y ≤ computeHumScore x) ∧
    (∀ b x y : ℚ, 0 < b → x ≤ y →
      computeAirQualityScore b y ≤ computeAirQualityScore b x) ∧
    (∀ x y : ℚ, x ≤ y → y ≤ 4 → computeBioSignalScore x ≤ computeBioSignalScore y) ∧
    (∀ x y : ℚ, 22 ≤ x → x ≤ y → computeBioSignalScore y ≤ computeBioSignalScore x) ∧
    (∀ x y r : ℚ, 400 ≤ r → 620 ≤ x → x ≤ y →
      computeHydrationScore y r ≤ computeHydrationScore x r) ∧
    (∀ x y r : ℚ, 400 ≤ r → x ≤ y → y < 450 →
      computeHydrationScore x r ≤ computeHydrationScore y r) ∧
    (∀ x y r : ℚ, 400 ≤ r → 450 ≤ x → x ≤ y → y ≤ 480 →
      computeHydrationScore x r ≤ computeHydrationScore y r) ∧
    (tempBandColdHazard 18 = 40 ∧ tempBandColdIdeal 18 = 40 ∧
      tempBandColdIdeal 21 = 100 ∧ tempBandHotIdeal 25 = 100 ∧
      tempBandHotIdeal 29 = 40 ∧ tempBandHotHazard 29 = 40) ∧
    (humBandLowHazard 40 = 40 ∧ humBandLowIdeal 40 = 40 ∧
      humBandLowIdeal 55 = 100 ∧ humBandHighIdeal 68 = 100 ∧
      humBandHighIdeal 80 = 40 ∧ humBandHighHazard 80 = 40) ∧
    (airBandNear 1.15 = 100 ∧ airBandNear 1.5 = 70 ∧ airBandMid 1.5 = 70 ∧
      airBandMid 2 = 40 ∧ airBandFar 2 = 40) ∧
    (bioBandFlat 2 = 20 ∧ bioBandLow 2 = 20 ∧ bioBandLow 4 = 100 ∧
      bioBandHigh 22 = 100 ∧ bioBandHigh 60 = 40 ∧ bioBandNoise 60 = 40) ∧
    (hydBandIdealWet 480 = 100 ∧ hydBandIdealDry 620 = 100 ∧
      hydBandIdealDry 700 = 60 ∧ hydBandDry 700 = 60 ∧
      hydBandWet 450 = 100 ∧ hydBandIdealWet 450 = 60) := by
  refine ⟨fun x y h1 h2 => tempScore_mono_below h1 h2,
    fun x y h1 h2 => tempScore_mono_above h1 h2,
    fun x y h1 h2 => humScore_mono_below h1 h2,
    fun x y h1 h2 => humScore_mono_above h1 h2,
    fun b x y hb h => airScore_mono hb h,
    fun x y h1 h2 => bioScore_mono_below h1 h2,
    fun x y h1 h2 => bioScore_mono_above h1 h2,
    fun x y r hr hx hxy => hydScore_mono_dry hr hx hxy,
    fun x y r hr hxy hy => hydScore_mono_wetFar hr hxy hy,
    fun x y r hr hx hxy hy => hydScore_mono_wetNear hr hx hxy hy,
    ?_, ?_, ?_, ?_, ?_⟩
  · refine ⟨?_, ?_, ?_, ?_, ?_, ?_⟩ <;>
      norm_num [tempBandColdHazard, tempBandColdIdeal, tempBandHotIdeal, tempBandHotHazard]
  · refine ⟨?_, ?_, ?_, ?_, ?_, ?_⟩ <;>
      norm_num [humBandLowHazard, humBandLowIdeal, humBandHighIdeal, humBandHighHazard]
  · refine ⟨?_, ?_, ?_, ?_, ?_⟩ <;> norm_num [airBandNear, airBandMid, airBandFar]
  · refine ⟨?_, ?_, ?_, ?_, ?_, ?_⟩ <;>
      norm_num [bioBandFlat, bioBandLow, bioBandHigh, bioBandNoise]
  · refine ⟨?_, ?_, ?_, ?_, ?_, ?_⟩ <;>
      norm_num [hydBandIdealWet, hydBandIdealDry, hydBandDry, hydBandWet]

/-- C1 (witness): the amended monotonicity statements applied at concrete
inputs on each side of each deadzone. -/
theorem C1_witness :
    computeTempScore 16 ≤ computeTempScore 19 ∧
    computeTempScore 31 ≤ computeTempScore 27 ∧
    computeHumScore 30 ≤ computeHumScore 50 ∧
    computeHumScore 85 ≤ computeHumScore 70 ∧
    computeAirQualityScore 70 200 ≤ computeAirQualityScore 70 100 ∧
    computeBioSignalScore 1 ≤ computeBioSignalScore 3 ∧
    computeBioSignalScore 70 ≤ computeBioSignalScore 30 ∧
    computeHydrationScore 800 900 ≤ computeHydrationScore 650 900 ∧
    computeHydrationScore 400 900 ≤ computeHydrationScore 430 900 ∧
    computeHydrationScore 455 900 ≤ computeHydrationScore 470 900 :=
  ⟨C1_amended.1 16 19 (by norm_num) (by norm_num),
    C1_amended.2.1 27 31 (by norm_num) (by norm_num),
    C1_amended.2.2.1 30 50 (by norm_num) (by norm_num),
    C1_amended.2.2.2.1 70 85 (by norm_num) (by norm_num),
    C1_amended.2.2.2.2.1 70 100 200 (by norm_num) (by norm_num),
    C1_amended.2.2.2.2.2.1 1 3 (by norm_num) (by norm_num),
    C1_amended.2.2.2.2.2.2.1 30 70 (by norm_num) (by norm_num),
    C1_amended.2.2.2.2.2.2.2.1 650 800 900 (by norm_num) (by norm_num) (by norm_num),
    C1_amended.2.2.2.2.2.2.2.2.1 400 430 900 (by norm_num) (by norm_num) (by norm_num),
    C1_amended.2.2.2.2.2.2.2.2.2.1 455 470 900 (by norm_num) (by norm_num) (by norm_num)
      (by norm_num)⟩

/-! Data model (`types/plant.ts`) and state derivation
(`deriveMood`, `deriveEmotionState` in `services/plantModel.ts`). -/

/-- The discrete emotion labels of the `EmotionState` union type. -/
inductive EmotionState
  | I_NEED_WATER
  | I_AM_BEING_WATERED
  | I_FEEL_HOT
  | I_AM_SWEATING_THIS_IS_TOO_HUMID
  | AIR_FEELS_BAD
  | CHECK_MY_CONNECTION
  | I_AM_NEARLY_DEAD
  | I_FEEL_COLD
  | I_FEEL_GREAT
  | I_AM_OKAY
  deriving DecidableEq, Repr

/-- The `PlantMood` union type. -/
inductive PlantMood
  | critical
  | thirsty
  | stressed
  | thriving
  | ok
  deriving DecidableEq, Repr

/-- A raw sensor sample (`PlantVitalsRaw`): all readings as exact rationals,
with the arrival timestamp in milliseconds. -/
structure PlantVitalsRaw where
  soilMoisture : ℚ
  temperature : ℚ
  humidity : ℚ
  mq2 : ℚ
  raindrop : ℚ
  bio : ℚ
  timestamp : ℚ
  deriving DecidableEq, Repr

/-- The four 0–100 scores (`PlantScores`). -/
structure PlantScores where
  hydrationScore : ℤ
  comfortScore : ℤ
  airQualityScore : ℤ
  bioSignalScore : ℤ
  deriving DecidableEq, Repr

/-- `deriveMood` in `services/plantModel.ts`. -/
def deriveMood (s : PlantScores) : PlantMood :=
  if s.hydrationScore < 10 then .critical
  else if s.hydrationScore < 30 then .thirsty
  else if s.comfortScore < 30 ∨ s.airQualityScore < 30 ∨ s.bioSignalScore < 20 then .stressed
  else if s.hydrationScore > 80 ∧ s.comfortScore > 80 ∧ s.airQualityScore > 70 ∧
      s.bioSignalScore > 40 then .thriving
  else .ok

/-- `deriveEmotionState` in `services/plantModel.ts`: the priority-ordered
guard chain, first match wins. -/
def deriveEmotionState (s : PlantScores) (v : PlantVitalsRaw) : EmotionState :=
  if v.raindrop < 400 ∧ s.hydrationScore < 60 then .I_AM_BEING_WATERED
  else if s.hydrationScore ≤ 10 then .I_AM_NEARLY_DEAD
  else if s.hydrationScore > 10 ∧ s.hydrationScore < 30 then .I_NEED_WATER
  else if v.temperature ≥ 30 then .I_FEEL_HOT
  else if v.temperature ≤ 15 then .I_FEEL_COLD
  else if v.humidity ≥ 80 then .I_AM_SWEATING_THIS_IS_TOO_HUMID
  else if s.airQualityScore < 40 then .AIR_FEELS_BAD
  else if s.bioSignalScore < 20 then .CHECK_MY_CONNECTION
  else if s.hydrationScore ≥ 80 ∧ s.comfortScore ≥ 80 ∧ s.airQualityScore ≥ 70 ∧
      s.bioSignalScore ≥ 40 then .I_FEEL_GREAT
  else .I_AM_OKAY

/-- First-match evaluation of an ordered guard list, defaulting to
`I_AM_OKAY`; this is the evaluation order the specification prescribes for
the State Derivation Engine. -/
def firstMatch : List (Bool × EmotionState) → EmotionState
  | [] => .I_AM_OKAY
  | (c, e) :: rest => if c then e else firstMatch rest

/-- The ordered guard list of the specification (§4.4): BEING_WATERED,
NEARLY_DEAD, NEEDS_WATER, TOO_HOT, TOO_COLD, TOO_HUMID, AIR_BAD,
CHECK_CONNECTION, FEELS_GREAT, with OKAY as the default. -/
def emotionGuardList (s : PlantScores) (v : PlantVitalsRaw) :
    List (Bool × EmotionState) :=
  [ (decide (v.raindrop < 400 ∧ s.hydrationScore < 60), .I_AM_BEING_WATERED),
    (decide (s.hydrationScore ≤ 10), .I_AM_NEARLY_DEAD),
    (decide (s.hydrationScore > 10 ∧ s.hydrationScore < 30), .I_NEED_WATER),
    (decide (v.temperature ≥ 30), .I_FEEL_HOT),
    (decide (v.temperature ≤ 15), .I_FEEL_COLD),
    (decide (v.humidity ≥ 80), .I_AM_SWEATING_THIS_IS_TOO_HUMID),
    (decide (s.airQualityScore < 40), .AIR_FEELS_BAD),
    (decide (s.bioSignalScore < 20), .CHECK_MY_CONNECTION),
    (decide (s.hydrationScore ≥ 80 ∧ s.comfortScore ≥ 80 ∧
      s.airQualityScore ≥ 70 ∧ s.bioSignalScore ≥ 40), .I_FEEL_GREAT) ]

/-- C4: `deriveEmotionState` is exactly the first-match evaluation of the
specification's ordered guard list (BEING_WATERED, NEARLY_DEAD,
NEEDS_WATER, TOO_HOT, TOO_COLD, TOO_HUMID, AIR_BAD, CHECK_CONNECTION,
FEELS_GREAT, then OKAY); in particular an input with wetness-contact below
the watering threshold (400), hydration score below the moderate cutoff
(60), and temperature at or below the cold floor (15) derives
I_AM_BEING_WATERED, not I_FEEL_COLD. -/
theorem C4_guardOrder :
    (∀ (s : PlantScores) (v : PlantVitalsRaw),
      deriveEmotionState s v = firstMatch (emotionGuardList s v)) ∧
    (∀ (s : PlantScores) (v : PlantVitalsRaw),
      v.raindrop < 400 → s.hydrationScore < 60 → v.temperature ≤ 15 →
        deriveEmotionState s v = .I_AM_BEING_WATERED) := by
  constructor
  · intro s v
    simp only [deriveEmotionState, emotionGuardList, firstMatch,
      decide_eq_true_eq]
  · intro s v h1 h2 h3
    unfold deriveEmotionState
    rw [if_pos ⟨h1, h2⟩]

/-- C4 (witness): the guard-order equation and the watering-beats-cold
precedence at a concrete cold, actively-watered sample. -/
theorem C4_witness :
    deriveEmotionState ⟨15, 40, 100, 100⟩ ⟨850, 10, 60, 70, 300, 8, 0⟩
        = firstMatch (emotionGuardList ⟨15, 40, 100, 100⟩ ⟨850, 10, 60, 70, 300, 8, 0⟩) ∧
    deriveEmotionState ⟨15, 40, 100, 100⟩ ⟨850, 10, 60, 70, 300, 8, 0⟩
        = .I_AM_BEING_WATERED :=
  ⟨C4_guardOrder.1 ⟨15, 40, 100, 100⟩ ⟨850, 10, 60, 70, 300, 8, 0⟩,
    C4_guardOrder.2 ⟨15, 40, 100, 100⟩ ⟨850, 10, 60, 70, 300, 8, 0⟩
      (by norm_num) (by norm_num) (by norm_num)⟩

/-! Temporal tracker and engine state
(`usePlantState.ts`, temporal-tracker revision, `updateStateFromRawVitals`).
React refs and state hooks become explicit fields of `EngineState`; one
WebSocket sample delivery is one call of `updateStateFromRawVitals`. The
randomly generated event `id` string is not modelled (it is a fresh opaque
identifier); event messages keep the source text with punctuation
normalized to plain ASCII. -/

/-- Care targets (`CareTargets` in `types/plant.ts`). -/
structure CareTargets where
  max_temp : ℚ
  min_temp : ℚ
  max_env_humid : ℚ
  min_env_humid : ℚ
  max_soil_moist : ℚ
  min_soil_moist : ℚ
  deriving DecidableEq, Repr

/-- `CARE_DEFAULTS` in the hook. -/
def CARE_DEFAULTS : CareTargets :=
  { max_temp := 32, min_temp := 10, max_env_humid := 85, min_env_humid := 30,
    max_soil_moist := 60, min_soil_moist := 15 }

/-- Comfort metrics (`ComfortMetrics` in `types/plant.ts`). -/
structure ComfortMetrics where
  moistureIndex : ℚ
  tempComfortIndex : ℚ
  humidityComfortIndex : ℚ
  pcs : ℚ
  soilPercent : ℚ
  deriving DecidableEq, Repr

/-- Kind of a logged plant event. -/
inductive EventKind
  | watered
  | warning
  deriving DecidableEq, Repr

/-- A logged plant event (`PlantEvent`), minus the random opaque `id`. -/
structure PlantEvent where
  kind : EventKind
  message : String
  timestamp : ℚ
  deriving DecidableEq, Repr

/-- A pending reminder (`Reminder`). -/
structure Reminder where
  id : String
  kind : String
  message : String
  dueDate : ℚ
  isUrgent : Bool
  deriving DecidableEq, Repr

/-- Display vitals (`PlantVitals`). -/
structure PlantVitals where
  health : ℤ
  water : ℤ
  sunlight : ℤ
  soil : ℤ
  deriving DecidableEq, Repr

/-- `getEmotionMessage` in `services/plantModel.ts` (text normalized to
plain ASCII: apostrophes and the water-drop emoji dropped). -/
def getEmotionMessage : EmotionState → String
  | .I_NEED_WATER => "Im thirsty, please water me soon."
  | .I_AM_BEING_WATERED => "Ahh, thank you for the water"
  | .I_FEEL_HOT => "Its too hot here."
  | .I_AM_SWEATING_THIS_IS_TOO_HUMID => "Too humid, I cant breathe."
  | .AIR_FEELS_BAD => "Air quality feels off."
  | .CHECK_MY_CONNECTION => "Check my clips/electrodes."
  | .I_AM_NEARLY_DEAD => "I need water urgently!"
  | .I_FEEL_COLD => "Its too cold here."
  | .I_FEEL_GREAT => "I feel amazing!"
  | .I_AM_OKAY => "I am doing okay."

/-- `computeScores` in the hook: the four normalizers applied to one raw
sample, with the module-level MQ-2 baseline passed explicitly. -/
def computeScores (baseline : ℚ) (raw : PlantVitalsRaw) : PlantScores :=
  { hydrationScore := computeHydrationScore raw.soilMoisture raw.raindrop,
    comfortScore := computeComfortScore raw.temperature raw.humidity,
    airQualityScore := computeAirQualityScore baseline raw.mq2,
    bioSignalScore := computeBioSignalScore raw.bio }

/-- `mapRange` helper of the hook. -/
def mapRange (value inMin inMax outMin outMax : ℚ) : ℚ :=
  if inMax = inMin then outMin
  else outMin + (value - inMin) / (inMax - inMin) * (outMax - outMin)

/-- `computeComfortMetrics` in the hook: soil percent from the ADC
calibration (`SOIL_CAL_DRY = 850`, `SOIL_CAL_WET = 400`), the three [0, 1]
comfort indices against the care targets, and the additive base PCS (later
overwritten by the multiplicative PCS inside the update). The source's
`|| 1` guard on a zero half-range is modelled by the explicit zero test. -/
def computeComfortMetrics (care : CareTargets) (raw : PlantVitalsRaw) :
    ComfortMetrics :=
  let soilPercent := clampQ (mapRange raw.soilMoisture 850 400 0 100) 0 100
  let moistureIndex :=
    clampQ ((soilPercent - care.min_soil_moist) /
      (care.max_soil_moist - care.min_soil_moist)) 0 1
  let tOpt := (care.max_temp + care.min_temp) / 2
  let tHalf0 := (care.max_temp - care.min_temp) / 2
  let tHalf := if tHalf0 = 0 then 1 else tHalf0
  let tempComfortIndex := clampQ (1 - |raw.temperature - tOpt| / tHalf) 0 1
  let hOpt := (care.max_env_humid + care.min_env_humid) / 2
  let hHalf0 := (care.max_env_humid - care.min_env_humid) / 2
  let hHalf := if hHalf0 = 0 then 1 else hHalf0
  let humidityComfortIndex := clampQ (1 - |raw.humidity - hOpt| / hHalf) 0 1
  let pcs := clampQ (0.4 * moistureIndex + 0.3 * tempComfortIndex +
    0.3 * humidityComfortIndex) 0 1
  { moistureIndex := moistureIndex, tempComfortIndex := tempComfortIndex,
    humidityComfortIndex := humidityComfortIndex, pcs := pcs,
    soilPercent := soilPercent }

/-- The gas-index portion of `TemporalState`: the rolling MQ-2 window, the
consecutive high-z hit counter, and the gas index Gi. -/
structure GasState where
  window : List ℚ
  hits : ℕ
  gi : ℚ
  deriving DecidableEq, Repr

/-- Rolling-window push (`w.push(raw.mq2); if (w.length > WINDOW) w.shift()`,
`WINDOW = 60`). -/
def gasWindowPush (w : List ℚ) (x : ℚ) : List ℚ :=
  let pushed := w ++ [x]
  if 60 < pushed.length then pushed.tail else pushed

/-- Mean over the window (`reduce(..) / Math.max(1, w.length)`). -/
def listMean (w : List ℚ) : ℚ := w.sum / (max 1 w.length : ℕ)

/-- Sample variance over the window
(`reduce((a,b) => a + (b-mean)*(b-mean), 0) / Math.max(1, w.length - 1)`);
the JS subtraction `w.length - 1` never goes below the `max` floor, so
truncated subtraction on `ℕ` is faithful. -/
def listVar (w : List ℚ) : ℚ :=
  (w.map (fun b => (b - listMean w) * (b - listMean w))).sum /
    (max 1 (w.length - 1) : ℕ)

/-- The spike trigger `z ≥ 3.0` of the gas tracker, on the window after the
current reading is pushed. The source computes
`z = (raw - mean) / Math.sqrt(Math.max(variance, 1e-6))`; since the
standard deviation is strictly positive, `z ≥ 3` holds exactly when
`raw - mean` is non-negative and its square is at least `9` times the
clamped variance, which avoids the irrational square root. -/
def gasZHit (w : List ℚ) (x : ℚ) : Prop :=
  let pushed := gasWindowPush w x
  let m := listMean pushed
  0 ≤ x - m ∧ 9 * max (listVar pushed) (1/1000000) ≤ (x - m) * (x - m)

instance gasZHit_dec (w : List ℚ) (x : ℚ) : Decidable (gasZHit w x) := by
  unfold gasZHit
  exact instDecidableAnd

/-- One gas-tracker update (`Z_TRIG = 3.0`, `REQUIRED_SPIKE_HITS = 3`,
`RECENT_WINDOW = 5`, `RECOVERY_ALPHA = 0.01`): on a qualifying z-hit the
counter increments, otherwise it decrements toward 0 (ℕ truncated
subtraction embeds the `> 0` guard); the counter is capped at 5; three
accumulated hits clamp Gi to at most 0.2 and reset the counter, otherwise
Gi recovers by `(1 - Gi) * 0.01`, capped at 1. -/
def gasStep (g : GasState) (x : ℚ) : GasState :=
  let w' := gasWindowPush g.window x
  let hits1 : ℕ := if gasZHit g.window x then g.hits + 1 else g.hits - 1
  let hits2 : ℕ := min hits1 5
  if 3 ≤ hits2 then { window := w', hits := 0, gi := min g.gi 0.2 }
  else { window := w', hits := hits2, gi := min 1 (g.gi + (1 - g.gi) * 0.01) }

/-- The temporal engine state: every mutable ref and React state of the
hook that the derivation pipeline reads or writes, plus the module-level
MQ-2 baseline and the active care targets. -/
structure EngineState where
  prevEmotion : EmotionState
  eventLog : List PlantEvent
  reminder : Option Reminder
  prevMetrics : Option ComfortMetrics
  lastWateredAt : Option ℚ
  wetStreak : ℕ
  benchmarkDays : ℚ
  gas : GasState
  careTargets : CareTargets
  mq2Baseline : ℚ
  realtimeOverride : Bool
  deriving DecidableEq, Repr

/-- The published result of one update: everything `updateStateFromRawVitals`
pushes to its React state setters. `metrics` is the EMA-smoothed,
hysteresis-gated published value; `rawMetrics` is this sample's metrics
with the multiplicative PCS; `wi`/`gi` are the temporal indices of this
update. -/
structure EngineOutput where
  scores : PlantScores
  vitals : PlantVitals
  mood : PlantMood
  emotion : EmotionState
  eventLog : List PlantEvent
  reminder : Option Reminder
  metrics : ComfortMetrics
  rawMetrics : ComfortMetrics
  wi : ℚ
  gi : ℚ
  deriving DecidableEq, Repr

/-- The watering-index computation of `updateStateFromRawVitals`: zero
while no watering has ever been detected, otherwise the time-decayed
freshness `max(0, 1 - elapsedDays / max(0.1, benchmarkDays))` gated by the
current moisture index (`MS_PER_DAY = 24*60*60*1000`). -/
def wateringIndex (lastWateredAt : Option ℚ) (nowMs bd mi : ℚ) : ℚ :=
  match lastWateredAt with
  | none => 0
  | some t =>
    let tDays := (nowMs - t) / (24 * 60 * 60 * 1000)
    let wiRaw := max 0 (1 - tDays / max 0.1 bd)
    min wiRaw mi

/-- `updateStateFromRawVitals` of the temporal-tracker revision of
`usePlantState.ts`: one full engine update for one raw sample, returning
the new state and the published output. `Date.now()` is modelled by the
sample's arrival timestamp. -/
def updateStateFromRawVitals (st : EngineState) (raw : PlantVitalsRaw) :
    EngineState × EngineOutput :=
  let newScores := computeScores st.mq2Baseline raw
  let newMetrics := computeComfortMetrics st.careTargets raw
  let nowMs := raw.timestamp
  -- Watering index Wi with decay and soil gating
  -- (RAINDROP_PARTIAL_THRESHOLD = 400, REQUIRED_WET_STREAK = 3)
  let wetStreak1 : ℕ := if raw.raindrop < 400 then st.wetStreak + 1 else 0
  let lastWateredAt1 : Option ℚ :=
    if 3 ≤ wetStreak1 then some nowMs else st.lastWateredAt
  let wetStreak2 : ℕ := if 3 ≤ wetStreak1 then 0 else wetStreak1
  let wi : ℚ :=
    wateringIndex lastWateredAt1 nowMs st.benchmarkDays newMetrics.moistureIndex
  -- Gas quality index Gi: spike detection + slow recovery
  let gas' := gasStep st.gas raw.mq2
  let gi := gas'.gi
  -- Multiplicative PCS with Wi/Gi modifiers
  let comfortBase := 0.5 * newMetrics.moistureIndex +
    0.25 * newMetrics.tempComfortIndex + 0.25 * newMetrics.humidityComfortIndex
  let waterFactor := 0.9 + 0.1 * min wi newMetrics.moistureIndex
  let gasFactor := 0.7 + 0.3 * gi
  let pcsMul := clampQ (comfortBase * waterFactor * gasFactor) 0 1
  let newMetrics' := { newMetrics with pcs := pcsMul }
  let newMood := deriveMood newScores
  let newEmotion := deriveEmotionState newScores raw
  -- Display vitals: health is the mean of hydration, comfort, air quality
  let vitals : PlantVitals :=
    { health := mathRound (((newScores.hydrationScore + newScores.comfortScore +
        newScores.airQualityScore : ℤ) : ℚ) / 3),
      water := newScores.hydrationScore,
      sunlight := newScores.comfortScore,
      soil := newScores.hydrationScore }
  -- Event log on emotion transitions (newest first, keep last 20)
  let eventLog' : List PlantEvent :=
    if newEmotion ≠ st.prevEmotion then
      ({ kind := if newEmotion = .I_AM_BEING_WATERED then .watered else .warning,
         message := getEmotionMessage newEmotion,
         timestamp := nowMs } :: st.eventLog).take 20
    else st.eventLog
  let prevEmotion' := if newEmotion ≠ st.prevEmotion then newEmotion else st.prevEmotion
  -- Reminder update from scores
  let reminder' : Option Reminder :=
    if newScores.hydrationScore < 30 then
      some { id := "reminder-water", kind := "water",
             message := "Time to water your plant!",
             dueDate := nowMs + 2 * 60 * 60 * 1000,
             isUrgent := newScores.hydrationScore < 10 }
    else if 60 ≤ newScores.hydrationScore ∧ 60 ≤ newScores.comfortScore ∧
        50 ≤ newScores.airQualityScore ∧ 30 ≤ newScores.bioSignalScore then
      none
    else st.reminder
  -- EMA smoothing + publish gate
  -- (ALPHA = 0.2, DELTA_INDEX = 0.03, DELTA_SOILPCT = 2)
  let published : ComfortMetrics :=
    match st.prevMetrics with
    | none => newMetrics'
    | some p =>
      let smooth : ComfortMetrics :=
        { moistureIndex := p.moistureIndex * (1 - 0.2) + newMetrics'.moistureIndex * 0.2,
          tempComfortIndex := p.tempComfortIndex * (1 - 0.2) + newMetrics'.tempComfortIndex * 0.2,
          humidityComfortIndex := p.humidityComfortIndex * (1 - 0.2) +
            newMetrics'.humidityComfortIndex * 0.2,
          pcs := p.pcs * (1 - 0.2) + newMetrics'.pcs * 0.2,
          soilPercent := p.soilPercent * (1 - 0.2) + newMetrics'.soilPercent * 0.2 }
      let major :=
        0.03 < |smooth.moistureIndex - p.moistureIndex| ∨
        0.03 < |smooth.tempComfortIndex - p.tempComfortIndex| ∨
        0.03 < |smooth.humidityComfortIndex - p.humidityComfortIndex| ∨
        0.03 < |smooth.pcs - p.pcs| ∨
        2 < |smooth.soilPercent - p.soilPercent|
      if major ∨ st.realtimeOverride then smooth else p
  ({ st with
      prevEmotion := prevEmotion',
      eventLog := eventLog',
      reminder := reminder',
      prevMetrics := some published,
      lastWateredAt := lastWateredAt1,
      wetStreak := wetStreak2,
      gas := gas' },
   { scores := newScores, vitals := vitals, mood := newMood,
     emotion := newEmotion, eventLog := eventLog', reminder := reminder',
     metrics := published, rawMetrics := newMetrics', wi := wi, gi := gi })

/-- The engine state at mount: empty event log, no reminder, wet streak 0,
gas window empty with zero hits and Gi = 1; the initial emotion, published
metrics, persisted `lastWateredAt`, benchmark days, care targets and MQ-2
baseline are supplied by the surrounding effects. -/
def engineInit (e0 : EmotionState) (m0 : Option ComfortMetrics)
    (la0 : Option ℚ) (bd0 : ℚ) (care : CareTargets) (baseline : ℚ) :
    EngineState :=
  { prevEmotion := e0, eventLog := [], reminder := none, prevMetrics := m0,
    lastWateredAt := la0, wetStreak := 0, benchmarkDays := bd0,
    gas := { window := [], hits := 0, gi := 1 }, careTargets := care,
    mq2Baseline := baseline, realtimeOverride := false }

/-- Process a finite sequence of raw samples in arrival order, collecting
the published output of every update. -/
def runUpdates (st : EngineState) : List PlantVitalsRaw →
    EngineState × List EngineOutput
  | [] => (st, [])
  | r :: rs =>
    let step := updateStateFromRawVitals st r
    let rest := runUpdates step.1 rs
    (rest.1, step.2 :: rest.2)

/-! Step-level lemmas about `updateStateFromRawVitals`. -/

/-- The published scores of one update are the four normalizers at the
sample, with the state's baseline. -/
theorem step_scores (st : EngineState) (raw : PlantVitalsRaw) :
    (updateStateFromRawVitals st raw).2.scores = computeScores st.mq2Baseline raw := rfl

/-- The published emotion of one update is the stateless derivation from
this sample's scores and raw values. -/
theorem step_emotion (st : EngineState) (raw : PlantVitalsRaw) :
    (updateStateFromRawVitals st raw).2.emotion
      = deriveEmotionState (computeScores st.mq2Baseline raw) raw := rfl

/-- The published mood of one update. -/
theorem step_mood (st : EngineState) (raw : PlantVitalsRaw) :
    (updateStateFromRawVitals st raw).2.mood
      = deriveMood (computeScores st.mq2Baseline raw) := rfl

/-- The published display vitals of one update: health is the rounded mean
of hydration, comfort and air quality. -/
theorem step_vitals (st : EngineState) (raw : PlantVitalsRaw) :
    (updateStateFromRawVitals st raw).2.vitals =
      { health := mathRound ((((computeScores st.mq2Baseline raw).hydrationScore +
          (computeScores st.mq2Baseline raw).comfortScore +
          (computeScores st.mq2Baseline raw).airQualityScore : ℤ) : ℚ) / 3),
        water := (computeScores st.mq2Baseline raw).hydrationScore,
        sunlight := (computeScores st.mq2Baseline raw).comfortScore,
        soil := (computeScores st.mq2Baseline raw).hydrationScore } := rfl

/-- The MQ-2 baseline, care targets and benchmark days are read-only for
the update. -/
theorem step_preserves (st : EngineState) (raw : PlantVitalsRaw) :
    (updateStateFromRawVitals st raw).1.mq2Baseline = st.mq2Baseline ∧
    (updateStateFromRawVitals st raw).1.careTargets = st.careTargets ∧
    (updateStateFromRawVitals st raw).1.benchmarkDays = st.benchmarkDays ∧
    (updateStateFromRawVitals st raw).1.realtimeOverride = st.realtimeOverride :=
  ⟨rfl, rfl, rfl, rfl⟩

/-- The state's event log and reminder after the update are the published
ones. -/
theorem step_state_published (st : EngineState) (raw : PlantVitalsRaw) :
    (updateStateFromRawVitals st raw).1.eventLog = (updateStateFromRawVitals st raw).2.eventLog ∧
    (updateStateFromRawVitals st raw).1.reminder = (updateStateFromRawVitals st raw).2.reminder :=
  ⟨rfl, rfl⟩

/-- After one update the stored previous emotion equals the emotion just
published (it is overwritten on a transition and already equal otherwise). -/
theorem step_prevEmotion (st : EngineState) (raw : PlantVitalsRaw) :
    (updateStateFromRawVitals st raw).1.prevEmotion
      = (updateStateFromRawVitals st raw).2.emotion := by
  by_cases h :
      deriveEmotionState (computeScores st.mq2Baseline raw) raw ≠ st.prevEmotion
  · simp only [updateStateFromRawVitals]
    rw [if_pos h]
  · simp only [updateStateFromRawVitals]
    rw [if_neg h]
    push_neg at h
    exact h.symm

/-- The raw (unsmoothed) metrics of one update keep the sample's
moisture index. -/
theorem step_rawMetrics_mi (st : EngineState) (raw : PlantVitalsRaw) :
    (updateStateFromRawVitals st raw).2.rawMetrics.moistureIndex
      = (computeComfortMetrics st.careTargets raw).moistureIndex := rfl

/-- The published gas index of one update is the gas-tracker step value. -/
theorem step_gi (st : EngineState) (raw : PlantVitalsRaw) :
    (updateStateFromRawVitals st raw).2.gi = (gasStep st.gas raw.mq2).gi := rfl

/-- The gas state after the update is the gas-tracker step. -/
theorem step_gas (st : EngineState) (raw : PlantVitalsRaw) :
    (updateStateFromRawVitals st raw).1.gas = gasStep st.gas raw.mq2 := rfl

/-- The published watering index of one update, in terms of the updated
last-watered timestamp. -/
theorem step_wi (st : EngineState) (raw : PlantVitalsRaw) :
    (updateStateFromRawVitals st raw).2.wi
      = wateringIndex (updateStateFromRawVitals st raw).1.lastWateredAt
          raw.timestamp st.benchmarkDays
          (computeComfortMetrics st.careTargets raw).moistureIndex := rfl

/-- When the derived emotion equals the stored previous emotion, the event
log is left untouched. -/
theorem step_log_noChange {st : EngineState} {raw : PlantVitalsRaw}
    (h : deriveEmotionState (computeScores st.mq2Baseline raw) raw = st.prevEmotion) :
    (updateStateFromRawVitals st raw).2.eventLog = st.eventLog := by
  simp only [updateStateFromRawVitals]
  rw [if_neg (by simpa using h)]

/-- When the derived emotion differs from the stored previous emotion, a
new event is prepended (kind `watered` exactly for BEING_WATERED) and the
log is truncated to 20 entries. -/
theorem step_log_change {st : EngineState} {raw : PlantVitalsRaw}
    (h : deriveEmotionState (computeScores st.mq2Baseline raw) raw ≠ st.prevEmotion) :
    (updateStateFromRawVitals st raw).2.eventLog =
      ({ kind := if deriveEmotionState (computeScores st.mq2Baseline raw) raw
            = .I_AM_BEING_WATERED then .watered else .warning,
         message := getEmotionMessage
           (deriveEmotionState (computeScores st.mq2Baseline raw) raw),
         timestamp := raw.timestamp } :: st.eventLog).take 20 := by
  simp only [updateStateFromRawVitals]
  rw [if_pos (by simpa using h)]

/-- The published reminder of one update, as a function of this sample's
scores and the stored reminder. -/
theorem step_reminder (st : EngineState) (raw : PlantVitalsRaw) :
    (updateStateFromRawVitals st raw).2.reminder =
      (if (computeScores st.mq2Baseline raw).hydrationScore < 30 then
        some { id := "reminder-water", kind := "water",
               message := "Time to water your plant!",
               dueDate := raw.timestamp + 2 * 60 * 60 * 1000,
               isUrgent := (computeScores st.mq2Baseline raw).hydrationScore < 10 }
      else if 60 ≤ (computeScores st.mq2Baseline raw).hydrationScore ∧
          60 ≤ (computeScores st.mq2Baseline raw).comfortScore ∧
          50 ≤ (computeScores st.mq2Baseline raw).airQualityScore ∧
          30 ≤ (computeScores st.mq2Baseline raw).bioSignalScore then
        none
      else st.reminder) := rfl

/-- A wet sample that does not yet complete the 3-streak: the counter
increments and the last-watered timestamp is untouched. -/
theorem step_wetStreak_incr {st : EngineState} {raw : PlantVitalsRaw}
    (h : raw.raindrop < 400) (hs : st.wetStreak + 1 < 3) :
    (updateStateFromRawVitals st raw).1.wetStreak = st.wetStreak + 1 ∧
    (updateStateFromRawVitals st raw).1.lastWateredAt = st.lastWateredAt := by
  simp only [updateStateFromRawVitals]
  rw [if_pos h]
  constructor
  · rw [if_neg (by omega)]
  · rw [if_neg (by omega)]

/-- A wet sample that completes the 3-streak: the last-watered timestamp is
set to this sample's time and the counter resets. -/
theorem step_wetStreak_trigger {st : EngineState} {raw : PlantVitalsRaw}
    (h : raw.raindrop < 400) (hs : 3 ≤ st.wetStreak + 1) :
    (updateStateFromRawVitals st raw).1.wetStreak = 0 ∧
    (updateStateFromRawVitals st raw).1.lastWateredAt = some raw.timestamp := by
  simp only [updateStateFromRawVitals]
  rw [if_pos h]
  constructor
  · rw [if_pos (by omega)]
  · rw [if_pos (by omega)]

/-- A dry sample resets the wet-streak counter and leaves the last-watered
timestamp untouched. -/
theorem step_wetStreak_dry {st : EngineState} {raw : PlantVitalsRaw}
    (h : ¬ raw.raindrop < 400) :
    (updateStateFromRawVitals st raw).1.wetStreak = 0 ∧
    (updateStateFromRawVitals st raw).1.lastWateredAt = st.lastWateredAt := by
  simp only [updateStateFromRawVitals]
  rw [if_neg h]
  constructor
  · rw [if_neg (by omega)]
  · rw [if_neg (by omega)]

/-- C6 (counterexample): at the nominal sample soil=550, temp=23, hum=60,
mq2=105 (baseline 70), wetness=900, bio=8, the individual scores are 100,
100 (temp), 100 (hum), 70 (air); the published health is
round((100+100+70)/3) = 90, while the claimed weighted blend
round(0.40·100+0.30·100+0.20·100+0.10·70) = 97: the published overall
health is not the weighted blend. -/
theorem C6_counterexample :
    (updateStateFromRawVitals
        (engineInit .I_AM_OKAY none none 8.5 CARE_DEFAULTS 70)
        ⟨550, 23, 60, 105, 900, 8, 0⟩).2.vitals.health = 90 ∧
    mathRound (0.40 * (100 : ℚ) + 0.30 * 100 + 0.20 * 100 + 0.10 * 70) = 97 ∧
    computeHydrationScore 550 900 = 100 ∧ computeTempScore 23 = 100 ∧
    computeHumScore 60 = 100 ∧ computeAirQualityScore 70 105 = 70 := by
  refine ⟨?_, by norm_num [mathRound], ?_, ?_, ?_, ?_⟩
  · rw [show (updateStateFromRawVitals
        (engineInit .I_AM_OKAY none none 8.5 CARE_DEFAULTS 70)
        ⟨550, 23, 60, 105, 900, 8, 0⟩).2.vitals = _ from step_vitals _ _]
    norm_num [engineInit, computeScores, computeHydrationScore, hydCore,
      computeComfortScore, computeTempScore, computeHumScore,
      computeAirQualityScore, airBandNear, mathRound]
  · norm_num [computeHydrationScore, hydCore, mathRound]
  · norm_num [computeTempScore]
  · norm_num [computeHumScore]
  · norm_num [computeAirQualityScore, airBandNear, mathRound]

/-- C6 (amended): on every update the published health value is the rounded
unweighted mean of the hydration, comfort and air-quality scores of that
sample (the 40/30/20/10 weighted blend exists only in the separate
`computeOverallHealth` used by the health-bar display, not in the engine's
published vitals). -/
theorem C6_amended :
    ∀ (st : EngineState) (raw : PlantVitalsRaw),
      (updateStateFromRawVitals st raw).2.vitals.health
        = mathRound (((computeHydrationScore raw.soilMoisture raw.raindrop +
            computeComfortScore raw.temperature raw.humidity +
            computeAirQualityScore st.mq2Baseline raw.mq2 : ℤ) : ℚ) / 3) :=
  fun _ _ => rfl

/-- C10: on any update whose hydration score is at least 30 and whose
scores do not satisfy the recovery condition (hydration ≥ 60, comfort ≥ 60,
air quality ≥ 50, bio signal ≥ 30), the pending reminder is left exactly as
it was — neither created, refreshed, nor cleared — in both the published
output and the stored state. -/
theorem C10_reminderHysteresis :
    ∀ (st : EngineState) (raw : PlantVitalsRaw),
      30 ≤ (computeScores st.mq2Baseline raw).hydrationScore →
      ¬(60 ≤ (computeScores st.mq2Baseline raw).hydrationScore ∧
        60 ≤ (computeScores st.mq2Baseline raw).comfortScore ∧
        50 ≤ (computeScores st.mq2Baseline raw).airQualityScore ∧
        30 ≤ (computeScores st.mq2Baseline raw).bioSignalScore) →
      (updateStateFromRawVitals st raw).2.reminder = st.reminder ∧
      (updateStateFromRawVitals st raw).1.reminder = st.reminder := by
  intro st raw h30 hrec
  have hout : (updateStateFromRawVitals st raw).2.reminder = st.reminder := by
    rw [step_reminder, if_neg (not_lt.mpr h30), if_neg hrec]
  exact ⟨hout, ((step_state_published st raw).2).trans hout⟩

/-- A pending reminder used to witness the hysteresis frame condition. -/
def pendingReminderW : Reminder :=
  { id := "reminder-water", kind := "water",
    message := "Time to water your plant!", dueDate := 100,
    isUrgent := false }

/-- An engine state holding `pendingReminderW`, used by the C10 witness. -/
def engineStateW : EngineState :=
  { prevEmotion := .I_AM_OKAY, eventLog := [],
    reminder := some pendingReminderW,
    prevMetrics := none, lastWateredAt := none, wetStreak := 0,
    benchmarkDays := 8.5, gas := { window := [], hits := 0, gi := 1 },
    careTargets := CARE_DEFAULTS, mq2Baseline := 70,
    realtimeOverride := false }

/-- C10 (witness): a sample scoring hydration 40 (inside the hysteresis
band) leaves a pending reminder untouched. -/
theorem C10_witness :
    (updateStateFromRawVitals engineStateW ⟨750, 23, 60, 70, 900, 8, 0⟩).2.reminder
        = engineStateW.reminder ∧
    (updateStateFromRawVitals engineStateW ⟨750, 23, 60, 70, 900, 8, 0⟩).1.reminder
        = engineStateW.reminder :=
  C10_reminderHysteresis _ _
    (by norm_num [engineStateW, computeScores, computeHydrationScore, hydCore,
      hydBandDry, mathRound])
    (by norm_num [engineStateW, computeScores, computeHydrationScore, hydCore,
      hydBandDry, mathRound])

/-- One update keeps the event log within 20 entries. -/
theorem step_log_le {st : EngineState} {raw : PlantVitalsRaw}
    (h : st.eventLog.length ≤ 20) :
    ((updateStateFromRawVitals st raw).2.eventLog).length ≤ 20 := by
  by_cases hch : deriveEmotionState (computeScores st.mq2Baseline raw) raw = st.prevEmotion
  · rw [step_log_noChange hch]
    exact h
  · rw [step_log_change hch]
    simp [List.length_take]

/-- Processing any sample sequence from a state whose log is within the
bound keeps the log within 20 entries. -/
theorem runUpdates_log_le {samples : List PlantVitalsRaw} :
    ∀ st : EngineState, st.eventLog.length ≤ 20 →
      ((runUpdates st samples).1.eventLog).length ≤ 20 := by
  induction samples with
  | nil => intro st h; exact h
  | cons r rs ih =>
    intro st h
    simp only [runUpdates]
    apply ih
    rw [(step_state_published st r).1]
    exact step_log_le h

/-- C9: from the engine's initial (empty) log, every reachable state has at
most 20 log entries; an entry is added only on an update whose derived
emotion differs from the stored one (otherwise the log is unchanged); on a
transition the new event is prepended and the log truncated to 20 (so when
the log was full the oldest — last — entry is evicted), and the new entry's
kind is `watered` exactly when the new emotion is I_AM_BEING_WATERED. -/
theorem C9_eventLogBound :
    (∀ (e0 : EmotionState) (m0 : Option ComfortMetrics) (la0 : Option ℚ)
        (bd0 : ℚ) (care : CareTargets) (base : ℚ)
        (samples : List PlantVitalsRaw),
      ((runUpdates (engineInit e0 m0 la0 bd0 care base) samples).1.eventLog).length
        ≤ 20) ∧
    (∀ (st : EngineState) (raw : PlantVitalsRaw),
      (updateStateFromRawVitals st raw).2.emotion = st.prevEmotion →
        (updateStateFromRawVitals st raw).2.eventLog = st.eventLog) ∧
    (∀ (st : EngineState) (raw : PlantVitalsRaw),
      (updateStateFromRawVitals st raw).2.emotion ≠ st.prevEmotion →
        (updateStateFromRawVitals st raw).2.eventLog =
          { kind := if (updateStateFromRawVitals st raw).2.emotion
                = .I_AM_BEING_WATERED then .watered else .warning,
            message := getEmotionMessage ((updateStateFromRawVitals st raw).2.emotion),
            timestamp := raw.timestamp } :: st.eventLog.take 19) ∧
    (∀ (st : EngineState) (raw : PlantVitalsRaw),
      (updateStateFromRawVitals st raw).2.emotion ≠ st.prevEmotion →
        (((updateStateFromRawVitals st raw).2.eventLog.head?).map PlantEvent.kind
            = some .watered ↔
          (updateStateFromRawVitals st raw).2.emotion = .I_AM_BEING_WATERED)) := by
  refine ⟨?_, ?_, ?_, ?_⟩
  · intro e0 m0 la0 bd0 care base samples
    exact runUpdates_log_le _ (by simp [engineInit])
  · intro st raw h
    exact step_log_noChange (by rw [← step_emotion]; exact h)
  · intro st raw h
    rw [step_log_change (by rw [← step_emotion]; exact h)]
    rw [show (20 : ℕ) = 19 + 1 from rfl, List.take_succ_cons, step_emotion]
  · intro st raw h
    rw [step_log_change (by rw [← step_emotion]; exact h)]
    by_cases hw : (updateStateFromRawVitals st raw).2.emotion = .I_AM_BEING_WATERED
    · rw [step_emotion] at hw
      simp only [hw, if_pos rfl, List.head?_cons, Option.map_some]
      rw [step_emotion]
      simp [hw]
    · rw [step_emotion] at hw
      simp only [if_neg hw, List.head?_cons, Option.map_some]
      rw [step_emotion]
      simp [hw]

/-- C9 (witness): at a nominal sample the FEELS_GREAT emotion repeated
leaves the log unchanged, while a transition from OKAY prepends one
`warning` event; the bound holds after a one-sample run. -/
theorem C9_witness :
    ((runUpdates (engineInit .I_AM_OKAY none none 8.5 CARE_DEFAULTS 70)
        [⟨550, 23, 60, 70, 900, 8, 0⟩]).1.eventLog).length ≤ 20 ∧
    (updateStateFromRawVitals (engineInit .I_FEEL_GREAT none none 8.5 CARE_DEFAULTS 70)
        ⟨550, 23, 60, 70, 900, 8, 0⟩).2.eventLog
      = (engineInit .I_FEEL_GREAT none none 8.5 CARE_DEFAULTS 70).eventLog ∧
    (updateStateFromRawVitals (engineInit .I_AM_OKAY none none 8.5 CARE_DEFAULTS 70)
        ⟨550, 23, 60, 70, 900, 8, 0⟩).2.eventLog
      = { kind := if (updateStateFromRawVitals
              (engineInit .I_AM_OKAY none none 8.5 CARE_DEFAULTS 70)
              ⟨550, 23, 60, 70, 900, 8, 0⟩).2.emotion = .I_AM_BEING_WATERED
            then .watered else .warning,
          message := getEmotionMessage ((updateStateFromRawVitals
            (engineInit .I_AM_OKAY none none 8.5 CARE_DEFAULTS 70)
            ⟨550, 23, 60, 70, 900, 8, 0⟩).2.emotion),
          timestamp := 0 }
        :: ((engineInit .I_AM_OKAY none none 8.5 CARE_DEFAULTS 70).eventLog).take 19 :=
  ⟨C9_eventLogBound.1 .I_AM_OKAY none none 8.5 CARE_DEFAULTS 70 _,
    C9_eventLogBound.2.1 _ _ (by
      rw [step_emotion]
      norm_num [engineInit, deriveEmotionState, computeScores,
        computeHydrationScore, hydCore, computeComfortScore, computeTempScore,
        computeHumScore, computeAirQualityScore, computeBioSignalScore,
        mathRound]),
    C9_eventLogBound.2.2.1 _ _ (by
      rw [step_emotion]
      norm_num [engineInit, deriveEmotionState, computeScores,
        computeHydrationScore, hydCore, computeComfortScore, computeTempScore,
        computeHumScore, computeAirQualityScore, computeBioSignalScore,
        mathRound]
      decide)⟩

/-- A qualifying z-hit below the trigger threshold increments the counter. -/
theorem gasStep_hits_incr {g : GasState} {x : ℚ} (hz : gasZHit g.window x)
    (h : g.hits + 1 < 3) : (gasStep g x).hits = g.hits + 1 := by
  simp only [gasStep, if_pos hz]
  rw [min_eq_left (by omega : g.hits + 1 ≤ 5), if_neg (by omega)]

/-- A qualifying z-hit below the trigger threshold applies the recovery
rule to Gi. -/
theorem gasStep_gi_recovery {g : GasState} {x : ℚ} (hz : gasZHit g.window x)
    (h : g.hits + 1 < 3) :
    (gasStep g x).gi = min 1 (g.gi + (1 - g.gi) * 0.01) := by
  simp only [gasStep, if_pos hz]
  rw [min_eq_left (by omega : g.hits + 1 ≤ 5), if_neg (by omega)]

/-- A qualifying z-hit on a counter of at least 2 confirms the spike: Gi is
clamped to at most 0.2 and the counter resets. -/
theorem gasStep_clamp {g : GasState} {x : ℚ} (hz : gasZHit g.window x)
    (h : 2 ≤ g.hits) :
    (gasStep g x).gi = min g.gi 0.2 ∧ (gasStep g x).hits = 0 := by
  simp only [gasStep, if_pos hz]
  rw [if_pos (le_min (by omega) (by norm_num))]
  exact ⟨rfl, rfl⟩

/-- C2: starting from a high-z hit counter of 0, a single qualifying z-hit
(z ≥ 3 on the rolling window) leaves the counter below the trigger, so the
gas index does not decrease on that update (it follows the recovery rule);
three consecutive qualifying hits make the counter reach 3 on the third
update, which clamps Gi to at most 0.2 and resets the counter to 0. -/
theorem C2_gasSpike :
    (∀ (g : GasState) (x : ℚ), g.hits = 0 → g.gi ≤ 1 → gasZHit g.window x →
      g.gi ≤ (gasStep g x).gi) ∧
    (∀ (g : GasState) (x₁ x₂ x₃ : ℚ), g.hits = 0 →
      gasZHit g.window x₁ →
      gasZHit (gasStep g x₁).window x₂ →
      gasZHit (gasStep (gasStep g x₁) x₂).window x₃ →
      (gasStep (gasStep (gasStep g x₁) x₂) x₃).gi ≤ 0.2 ∧
      (gasStep (gasStep (gasStep g x₁) x₂) x₃).hits = 0) := by
  constructor
  · intro g x h0 h1 hz
    rw [gasStep_gi_recovery hz (by omega)]
    exact le_min h1 (by linarith)
  · intro g x₁ x₂ x₃ h0 hz1 hz2 hz3
    have h1 : (gasStep g x₁).hits = 1 := by
      rw [gasStep_hits_incr hz1 (by omega)]
      omega
    have h2 : (gasStep (gasStep g x₁) x₂).hits = 2 := by
      rw [gasStep_hits_incr hz2 (by omega)]
      omega
    obtain ⟨hgi, hhits⟩ := gasStep_clamp hz3 (by omega)
    refine ⟨?_, hhits⟩
    rw [hgi]
    exact min_le_right _ _

/-- The rolling window after a gas-tracker step is the pushed window,
whatever the branch. -/
theorem gasStep_window (g : GasState) (x : ℚ) :
    (gasStep g x).window = gasWindowPush g.window x := by
  simp only [gasStep]
  split_ifs <;> rfl

/-- C2 (witness): over an established ten-sample window of zeros, a single
spike to 100 is a qualifying z-hit and Gi (here 1/2) does not decrease;
three escalating spikes (100, 10000, 10000000) are three consecutive
qualifying hits and on the third update Gi is clamped to at most 0.2 with
the counter reset. -/
theorem C2_witness :
    (1/2 : ℚ) ≤ (gasStep ⟨[0,0,0,0,0,0,0,0,0,0], 0, 1/2⟩ 100).gi ∧
    (gasStep (gasStep (gasStep ⟨[0,0,0,0,0,0,0,0,0,0], 0, 1⟩ 100) 10000)
      10000000).gi ≤ 0.2 ∧
    (gasStep (gasStep (gasStep ⟨[0,0,0,0,0,0,0,0,0,0], 0, 1⟩ 100) 10000)
      10000000).hits = 0 := by
  refine ⟨C2_gasSpike.1 ⟨[0,0,0,0,0,0,0,0,0,0], 0, 1/2⟩ 100 rfl (by norm_num)
    (by norm_num [gasZHit, gasWindowPush, listMean, listVar]), ?_, ?_⟩
  · exact (C2_gasSpike.2 ⟨[0,0,0,0,0,0,0,0,0,0], 0, 1⟩ 100 10000 10000000 rfl
      (by norm_num [gasZHit, gasWindowPush, listMean, listVar])
      (by rw [gasStep_window]
          norm_num [gasZHit, gasWindowPush, listMean, listVar])
      (by rw [gasStep_window, gasStep_window]
          norm_num [gasZHit, gasWindowPush, listMean, listVar])).1
  · exact (C2_gasSpike.2 ⟨[0,0,0,0,0,0,0,0,0,0], 0, 1⟩ 100 10000 10000000 rfl
      (by norm_num [gasZHit, gasWindowPush, listMean, listVar])
      (by rw [gasStep_window]
          norm_num [gasZHit, gasWindowPush, listMean, listVar])
      (by rw [gasStep_window, gasStep_window]
          norm_num [gasZHit, gasWindowPush, listMean, listVar])).2

/-- Clamping lands in the target interval. -/
theorem clampQ_mem {v lo hi : ℚ} (h : lo ≤ hi) :
    lo ≤ clampQ v lo hi ∧ clampQ v lo hi ≤ hi :=
  ⟨le_max_left lo _, max_le h (min_le_left hi v)⟩

/-- One gas-tracker step keeps Gi inside [0, 1]. -/
theorem gasStep_gi_mem {g : GasState} (h0 : 0 ≤ g.gi) (h1 : g.gi ≤ 1)
    (x : ℚ) : 0 ≤ (gasStep g x).gi ∧ (gasStep g x).gi ≤ 1 := by
  simp only [gasStep]
  split_ifs <;>
    refine ⟨?_, ?_⟩ <;>
    first
      | exact le_min h0 (by norm_num)
      | exact le_trans (min_le_left _ _) h1
      | exact le_min (by norm_num) (by nlinarith)
      | exact min_le_left _ _

/-- The moisture index of the comfort metrics lies in [0, 1]. -/
theorem metrics_mi_mem (care : CareTargets) (raw : PlantVitalsRaw) :
    0 ≤ (computeComfortMetrics care raw).moistureIndex ∧
    (computeComfortMetrics care raw).moistureIndex ≤ 1 := by
  simp only [computeComfortMetrics]
  exact clampQ_mem (by norm_num)

/-- The watering index never exceeds its gating moisture index and lies in
[0, 1] whenever the moisture index does. -/
theorem wateringIndex_mem {mi : ℚ} (la : Option ℚ) (now bd : ℚ)
    (h0 : 0 ≤ mi) (h1 : mi ≤ 1) :
    wateringIndex la now bd mi ≤ mi ∧ 0 ≤ wateringIndex la now bd mi ∧
    wateringIndex la now bd mi ≤ 1 := by
  cases la with
  | none =>
    simp only [wateringIndex]
    exact ⟨h0, le_refl 0, by norm_num⟩
  | some t =>
    simp only [wateringIndex]
    exact ⟨min_le_right _ _, le_min (le_max_left 0 _) h0,
      le_trans (min_le_right _ _) h1⟩

/-- One update publishes Wi at most the sample's moisture index, with Wi
and Gi inside [0, 1], provided the incoming Gi is inside [0, 1]. -/
theorem step_out_bounds {st : EngineState} (raw : PlantVitalsRaw)
    (h0 : 0 ≤ st.gas.gi) (h1 : st.gas.gi ≤ 1) :
    (updateStateFromRawVitals st raw).2.wi
        ≤ (updateStateFromRawVitals st raw).2.rawMetrics.moistureIndex ∧
    0 ≤ (updateStateFromRawVitals st raw).2.wi ∧
    (updateStateFromRawVitals st raw).2.wi ≤ 1 ∧
    0 ≤ (updateStateFromRawVitals st raw).2.gi ∧
    (updateStateFromRawVitals st raw).2.gi ≤ 1 := by
  obtain ⟨hm0, hm1⟩ := metrics_mi_mem st.careTargets raw
  obtain ⟨hw1, hw2, hw3⟩ :=
    wateringIndex_mem ((updateStateFromRawVitals st raw).1.lastWateredAt)
      raw.timestamp st.benchmarkDays hm0 hm1
  obtain ⟨hg0, hg1⟩ := gasStep_gi_mem h0 h1 raw.mq2
  rw [step_wi, step_rawMetrics_mi, step_gi]
  exact ⟨hw1, hw2, hw3, hg0, hg1⟩

/-- Processing any sample sequence from a state with Gi in [0, 1], every
published output satisfies the soil-gating and range invariants. -/
theorem runUpdates_bounds {samples : List PlantVitalsRaw} :
    ∀ st : EngineState, 0 ≤ st.gas.gi → st.gas.gi ≤ 1 →
      ∀ out ∈ (runUpdates st samples).2,
        out.wi ≤ out.rawMetrics.moistureIndex ∧ 0 ≤ out.wi ∧ out.wi ≤ 1 ∧
        0 ≤ out.gi ∧ out.gi ≤ 1 := by
  induction samples with
  | nil => intro st _ _ out hmem; simp [runUpdates] at hmem
  | cons r rs ih =>
    intro st h0 h1 out hmem
    simp only [runUpdates, List.mem_cons] at hmem
    rcases hmem with hout | hmem
    · subst hout
      exact step_out_bounds r h0 h1
    · have hg := gasStep_gi_mem h0 h1 r.mq2
      refine ih (updateStateFromRawVitals st r).1 ?_ ?_ out hmem
      · rw [step_gas]; exact hg.1
      · rw [step_gas]; exact hg.2

/-- C3: for every finite sequence of raw samples processed in arrival order
from the engine's initial state (any persisted parameters), every update's
watering index is at most that update's moisture index, and both Wi and Gi
remain in [0, 1] after every update. -/
theorem C3_soilGating :
    ∀ (e0 : EmotionState) (m0 : Option ComfortMetrics) (la0 : Option ℚ)
      (bd0 : ℚ) (care : CareTargets) (base : ℚ)
      (samples : List PlantVitalsRaw),
      ∀ out ∈ (runUpdates (engineInit e0 m0 la0 bd0 care base) samples).2,
        out.wi ≤ out.rawMetrics.moistureIndex ∧ 0 ≤ out.wi ∧ out.wi ≤ 1 ∧
        0 ≤ out.gi ∧ out.gi ≤ 1 := by
  intro e0 m0 la0 bd0 care base samples out hmem
  exact runUpdates_bounds _ (by simp [engineInit]) (by simp [engineInit]) out hmem

/-- C3 (witness): the invariants hold for the output of a concrete
one-sample run. -/
theorem C3_witness :
    (updateStateFromRawVitals
        (engineInit .I_AM_OKAY none none 8.5 CARE_DEFAULTS 70)
        ⟨400, 23, 60, 70, 300, 8, 0⟩).2.wi
      ≤ (updateStateFromRawVitals
        (engineInit .I_AM_OKAY none none 8.5 CARE_DEFAULTS 70)
        ⟨400, 23, 60, 70, 300, 8, 0⟩).2.rawMetrics.moistureIndex ∧
    0 ≤ (updateStateFromRawVitals
        (engineInit .I_AM_OKAY none none 8.5 CARE_DEFAULTS 70)
        ⟨400, 23, 60, 70, 300, 8, 0⟩).2.wi ∧
    (updateStateFromRawVitals
        (engineInit .I_AM_OKAY none none 8.5 CARE_DEFAULTS 70)
        ⟨400, 23, 60, 70, 300, 8, 0⟩).2.wi ≤ 1 ∧
    0 ≤ (updateStateFromRawVitals
        (engineInit .I_AM_OKAY none none 8.5 CARE_DEFAULTS 70)
        ⟨400, 23, 60, 70, 300, 8, 0⟩).2.gi ∧
    (updateStateFromRawVitals
        (engineInit .I_AM_OKAY none none 8.5 CARE_DEFAULTS 70)
        ⟨400, 23, 60, 70, 300, 8, 0⟩).2.gi ≤ 1 :=
  C3_soilGating .I_AM_OKAY none none 8.5 CARE_DEFAULTS 70
    [⟨400, 23, 60, 70, 300, 8, 0⟩] _ (by simp [runUpdates])

/-- C7: if the wetness-contact reading stays below the partial-contact
threshold (400) for 3 consecutive samples starting from a zero wet-streak,
and the third sample's hydration score is below 60, then on the triggering
update the derived emotion is I_AM_BEING_WATERED, `lastWateredAt` is set to
that update's time, the wet-streak counter resets to 0, and on the next
cycle Wi equals `min(1 - elapsedDays/benchmarkDays, moistureIndex)`
(for any benchmark ≥ 0.1 and elapsed time within the benchmark). -/
theorem C7_wateringScenario
    (st : EngineState) (s₁ s₂ s₃ s₄ : PlantVitalsRaw)
    (hstreak : st.wetStreak = 0)
    (h₁ : s₁.raindrop < 400) (h₂ : s₂.raindrop < 400) (h₃ : s₃.raindrop < 400)
    (hhyd : computeHydrationScore s₃.soilMoisture s₃.raindrop < 60)
    (hbd : (1/10 : ℚ) ≤ st.benchmarkDays)
    (_hts : s₃.timestamp ≤ s₄.timestamp)
    (hdecay : (s₄.timestamp - s₃.timestamp) / (24 * 60 * 60 * 1000)
      ≤ st.benchmarkDays) :
    (updateStateFromRawVitals (updateStateFromRawVitals
        (updateStateFromRawVitals st s₁).1 s₂).1 s₃).2.emotion
      = .I_AM_BEING_WATERED ∧
    (updateStateFromRawVitals (updateStateFromRawVitals
        (updateStateFromRawVitals st s₁).1 s₂).1 s₃).1.lastWateredAt
      = some s₃.timestamp ∧
    (updateStateFromRawVitals (updateStateFromRawVitals
        (updateStateFromRawVitals st s₁).1 s₂).1 s₃).1.wetStreak = 0 ∧
    (updateStateFromRawVitals (updateStateFromRawVitals
        (updateStateFromRawVitals
          (updateStateFromRawVitals st s₁).1 s₂).1 s₃).1 s₄).2.wi
      = min (1 - ((s₄.timestamp - s₃.timestamp) / (24 * 60 * 60 * 1000))
            / st.benchmarkDays)
          (updateStateFromRawVitals (updateStateFromRawVitals
            (updateStateFromRawVitals
              (updateStateFromRawVitals st s₁).1 s₂).1 s₃).1 s₄).2.rawMetrics.moistureIndex := by
  have hw1 := @step_wetStreak_incr st s₁ h₁ (by omega)
  have hw2 := @step_wetStreak_incr
    (updateStateFromRawVitals st s₁).1 s₂ h₂ (by omega)
  have hw3 := @step_wetStreak_trigger
    (updateStateFromRawVitals (updateStateFromRawVitals st s₁).1 s₂).1
    s₃ h₃ (by omega)
  refine ⟨?_, hw3.2, hw3.1, ?_⟩
  · have hsc : (computeScores (updateStateFromRawVitals
        (updateStateFromRawVitals st s₁).1 s₂).1.mq2Baseline s₃).hydrationScore
        = computeHydrationScore s₃.soilMoisture s₃.raindrop := rfl
    rw [step_emotion]
    unfold deriveEmotionState
    rw [hsc, if_pos ⟨h₃, hhyd⟩]
  · have hla : (updateStateFromRawVitals (updateStateFromRawVitals
        (updateStateFromRawVitals
          (updateStateFromRawVitals st s₁).1 s₂).1 s₃).1 s₄).1.lastWateredAt
        = some s₃.timestamp := by
      rcases lt_or_le s₄.raindrop 400 with h | h
      · exact ((step_wetStreak_incr h (by omega)).2).trans hw3.2
      · exact ((step_wetStreak_dry (not_lt.mpr h)).2).trans hw3.2
    have hbd3 : (updateStateFromRawVitals (updateStateFromRawVitals
        (updateStateFromRawVitals st s₁).1 s₂).1 s₃).1.benchmarkDays
        = st.benchmarkDays := by
      rw [(step_preserves _ _).2.2.1, (step_preserves _ _).2.2.1,
        (step_preserves _ _).2.2.1]
    rw [step_wi, step_rawMetrics_mi, hla, hbd3]
    simp only [wateringIndex]
    have hbpos : (0 : ℚ) < st.benchmarkDays := lt_of_lt_of_le (by norm_num) hbd
    rw [max_eq_right (show (0.1 : ℚ) ≤ st.benchmarkDays by
      rw [show (0.1 : ℚ) = 1/10 by norm_num]
      exact hbd)]
    rw [max_eq_right (by
      have hq : (s₄.timestamp - s₃.timestamp) / (24 * 60 * 60 * 1000)
          / st.benchmarkDays ≤ 1 := (div_le_one hbpos).mpr hdecay
      linarith)]

/-- Initial engine state for the C7 witness scenario. -/
def c7st : EngineState := engineInit .I_AM_OKAY none none 8.5 CARE_DEFAULTS 70

/-- First wet sample of the C7 witness scenario (raindrop 300 < 400). -/
def c7s1 : PlantVitalsRaw := ⟨850, 23, 60, 70, 300, 8, 0⟩

/-- Second wet sample of the C7 witness scenario. -/
def c7s2 : PlantVitalsRaw := ⟨850, 23, 60, 70, 300, 8, 1000⟩

/-- Third (triggering) wet sample of the C7 witness scenario; its hydration
score is 15 < 60. -/
def c7s3 : PlantVitalsRaw := ⟨850, 23, 60, 70, 300, 8, 2000⟩

/-- Follow-up dry sample one day after the detected watering. -/
def c7s4 : PlantVitalsRaw := ⟨850, 23, 60, 70, 900, 8, 86402000⟩

/-- C7 (witness): three consecutive wet samples with low hydration trigger
BEING_WATERED with the timestamp recorded and the streak reset, and the
next cycle's Wi follows the decay-gating formula. -/
theorem C7_witness :
    (updateStateFromRawVitals (updateStateFromRawVitals
        (updateStateFromRawVitals c7st c7s1).1 c7s2).1 c7s3).2.emotion
      = .I_AM_BEING_WATERED ∧
    (updateStateFromRawVitals (updateStateFromRawVitals
        (updateStateFromRawVitals c7st c7s1).1 c7s2).1 c7s3).1.lastWateredAt
      = some c7s3.timestamp ∧
    (updateStateFromRawVitals (updateStateFromRawVitals
        (updateStateFromRawVitals c7st c7s1).1 c7s2).1 c7s3).1.wetStreak = 0 ∧
    (updateStateFromRawVitals (updateStateFromRawVitals
        (updateStateFromRawVitals
          (updateStateFromRawVitals c7st c7s1).1 c7s2).1 c7s3).1 c7s4).2.wi
      = min (1 - ((c7s4.timestamp - c7s3.timestamp) / (24 * 60 * 60 * 1000))
            / c7st.benchmarkDays)
          (updateStateFromRawVitals (updateStateFromRawVitals
            (updateStateFromRawVitals
              (updateStateFromRawVitals c7st c7s1).1 c7s2).1 c7s3).1
            c7s4).2.rawMetrics.moistureIndex :=
  C7_wateringScenario c7st c7s1 c7s2 c7s3 c7s4 rfl
    (by norm_num [c7s1]) (by norm_num [c7s2]) (by norm_num [c7s3])
    (by norm_num [c7s3, computeHydrationScore, hydCore, hydBandDry, mathRound])
    (by norm_num [c7st, engineInit])
    (by norm_num [c7s3, c7s4])
    (by norm_num [c7s3, c7s4, c7st, engineInit])

/-- When the previous published metrics exist and the smoothed moisture
index moves by more than the 3% gate on its own, the update publishes the
EMA-smoothed metrics: the published (and stored) moisture index is
`prev * (1 - α) + new * α` with α = 0.2. -/
theorem step_metrics_mi {st : EngineState} {raw : PlantVitalsRaw}
    {p : ComfortMetrics} (hp : st.prevMetrics = some p)
    (hmaj : (0.03 : ℚ) < |p.moistureIndex * (1 - 0.2) +
      (computeComfortMetrics st.careTargets raw).moistureIndex * 0.2
        - p.moistureIndex|) :
    (updateStateFromRawVitals st raw).2.metrics.moistureIndex
      = p.moistureIndex * (1 - 0.2) +
        (computeComfortMetrics st.careTargets raw).moistureIndex * 0.2 ∧
    ∃ q, (updateStateFromRawVitals st raw).1.prevMetrics = some q ∧
      q.moistureIndex = p.moistureIndex * (1 - 0.2) +
        (computeComfortMetrics st.careTargets raw).moistureIndex * 0.2 := by
  simp only [updateStateFromRawVitals, hp]
  rw [if_pos (Or.inl (Or.inl hmaj))]
  exact ⟨rfl, _, rfl, rfl⟩

/-- Engine state for the C5 counterexample: previously published metrics
all zero. -/
def c5st : EngineState :=
  engineInit .I_AM_OKAY (some ⟨0, 0, 0, 0, 0⟩) none 8.5 CARE_DEFAULTS 70

/-- The repeated sample of the C5 counterexample (fully wet soil ADC). -/
def c5s : PlantVitalsRaw := ⟨400, 23, 60, 70, 900, 8, 0⟩

/-- C5 (counterexample): feeding the identical sample twice, the second
call publishes different comfort metrics than the first — the EMA has not
converged, so the published moisture index moves from 1/5 to 9/25. The
EngineOutput is therefore not unchanged on the second call. -/
theorem C5_counterexample :
    (updateStateFromRawVitals c5st c5s).2.metrics.moistureIndex = 1/5 ∧
    (updateStateFromRawVitals
      (updateStateFromRawVitals c5st c5s).1 c5s).2.metrics.moistureIndex = 9/25 := by
  have hmi : (computeComfortMetrics CARE_DEFAULTS c5s).moistureIndex = 1 := by
    norm_num [computeComfortMetrics, mapRange, clampQ, CARE_DEFAULTS, c5s]
  have hp0 : c5st.prevMetrics = some ⟨0, 0, 0, 0, 0⟩ := rfl
  have hcare0 : c5st.careTargets = CARE_DEFAULTS := rfl
  obtain ⟨h1, q, hq, hqmi⟩ := @step_metrics_mi c5st c5s ⟨0, 0, 0, 0, 0⟩ hp0 (by
    rw [hcare0, hmi]
    norm_num [abs_of_nonneg])
  have hqmi' : q.moistureIndex = 1/5 := by
    rw [hqmi, hcare0, hmi]
    norm_num
  have hcare1 : (updateStateFromRawVitals c5st c5s).1.careTargets
      = CARE_DEFAULTS := (step_preserves c5st c5s).2.1
  obtain ⟨h2, _, _, _⟩ := @step_metrics_mi
    (updateStateFromRawVitals c5st c5s).1 c5s q hq (by
      rw [hqmi', hcare1, hmi]
      norm_num [abs_of_nonneg])
  constructor
  · rw [h1, hcare0, hmi]
    norm_num
  · rw [h2, hqmi', hcare1, hmi]
    norm_num

/-- C5 (amended): feeding the identical raw sample twice in a row leaves
the scores, display vitals, mood, emotion, event log and reminder of the
EngineOutput unchanged on the second call; the published comfort metrics
are exempt (the EMA smoothing keeps moving until convergence, as the
counterexample shows), as are the temporal indices themselves. -/
theorem C5_amended :
    ∀ (st : EngineState) (raw : PlantVitalsRaw),
      (updateStateFromRawVitals (updateStateFromRawVitals st raw).1 raw).2.scores
        = (updateStateFromRawVitals st raw).2.scores ∧
      (updateStateFromRawVitals (updateStateFromRawVitals st raw).1 raw).2.vitals
        = (updateStateFromRawVitals st raw).2.vitals ∧
      (updateStateFromRawVitals (updateStateFromRawVitals st raw).1 raw).2.mood
        = (updateStateFromRawVitals st raw).2.mood ∧
      (updateStateFromRawVitals (updateStateFromRawVitals st raw).1 raw).2.emotion
        = (updateStateFromRawVitals st raw).2.emotion ∧
      (updateStateFromRawVitals (updateStateFromRawVitals st raw).1 raw).2.eventLog
        = (updateStateFromRawVitals st raw).2.eventLog ∧
      (updateStateFromRawVitals (updateStateFromRawVitals st raw).1 raw).2.reminder
        = (updateStateFromRawVitals st raw).2.reminder := by
  intro st raw
  have hbase : (updateStateFromRawVitals st raw).1.mq2Baseline = st.mq2Baseline :=
    (step_preserves st raw).1
  refine ⟨?_, ?_, ?_, ?_, ?_, ?_⟩
  · rw [step_scores, step_scores, hbase]
  · rw [step_vitals, step_vitals, hbase]
  · rw [step_mood, step_mood, hbase]
  · rw [step_emotion, step_emotion, hbase]
  · have he : deriveEmotionState
        (computeScores (updateStateFromRawVitals st raw).1.mq2Baseline raw) raw
        = (updateStateFromRawVitals st raw).1.prevEmotion := by
      rw [hbase, step_prevEmotion, step_emotion]
    rw [step_log_noChange he]
    exact (step_state_published st raw).1
  · rw [step_reminder, step_reminder, hbase]
    by_cases h1 : (computeScores st.mq2Baseline raw).hydrationScore < 30
    · rw [if_pos h1, if_pos h1]
    · rw [if_neg h1, if_neg h1]
      by_cases h2 : 60 ≤ (computeScores st.mq2Baseline raw).hydrationScore ∧
          60 ≤ (computeScores st.mq2Baseline raw).comfortScore ∧
          50 ≤ (computeScores st.mq2Baseline raw).airQualityScore ∧
          30 ≤ (computeScores st.mq2Baseline raw).bioSignalScore
      · rw [if_pos h2, if_pos h2]
      · rw [if_neg h2, if_neg h2, (step_state_published st raw).2, step_reminder,
          if_neg h1, if_neg h2]

/-- C8: every score normalizer returns an integer in [0, 100] for every
rational input — including negative, extreme and out-of-range values — the
air-quality normalizer for every baseline as well; consequently the engine
publishes a ScoreSet whose four components are always in [0, 100], and its
emotion is always the (total) stateless derivation from that ScoreSet and
the raw sample: no input is rejected. -/
theorem C8_scoreRangeTotal :
    (∀ soil rain : ℚ, 0 ≤ computeHydrationScore soil rain ∧
      computeHydrationScore soil rain ≤ 100) ∧
    (∀ t h : ℚ, 0 ≤ computeComfortScore t h ∧ computeComfortScore t h ≤ 100) ∧
    (∀ b m : ℚ, 0 ≤ computeAirQualityScore b m ∧
      computeAirQualityScore b m ≤ 100) ∧
    (∀ x : ℚ, 0 ≤ computeBioSignalScore x ∧ computeBioSignalScore x ≤ 100) ∧
    (∀ (st : EngineState) (raw : PlantVitalsRaw),
      0 ≤ (updateStateFromRawVitals st raw).2.scores.hydrationScore ∧
      (updateStateFromRawVitals st raw).2.scores.hydrationScore ≤ 100 ∧
      0 ≤ (updateStateFromRawVitals st raw).2.scores.comfortScore ∧
      (updateStateFromRawVitals st raw).2.scores.comfortScore ≤ 100 ∧
      0 ≤ (updateStateFromRawVitals st raw).2.scores.airQualityScore ∧
      (updateStateFromRawVitals st raw).2.scores.airQualityScore ≤ 100 ∧
      0 ≤ (updateStateFromRawVitals st raw).2.scores.bioSignalScore ∧
      (updateStateFromRawVitals st raw).2.scores.bioSignalScore ≤ 100) ∧
    (∀ (st : EngineState) (raw : PlantVitalsRaw),
      (updateStateFromRawVitals st raw).2.emotion
        = deriveEmotionState ((updateStateFromRawVitals st raw).2.scores) raw) := by
  refine ⟨hydScore_range, comfortScore_range, airScore_range, bioScore_range,
    ?_, ?_⟩
  · intro st raw
    rw [step_scores]
    obtain ⟨h1, h2⟩ := hydScore_range raw.soilMoisture raw.raindrop
    obtain ⟨h3, h4⟩ := comfortScore_range raw.temperature raw.humidity
    obtain ⟨h5, h6⟩ := airScore_range st.mq2Baseline raw.mq2
    obtain ⟨h7, h8⟩ := bioScore_range raw.bio
    exact ⟨h1, h2, h3, h4, h5, h6, h7, h8⟩
  · intro st raw
    rw [step_emotion, step_scores]
